import Mathlib

/-!
Verification development for the statistics-to-narrative pipeline of the
Joto urban-environment dashboard (`pages/1_Temperature_Analysis.py`).

Modelling conventions:
* A raster grid is a list of pixels; `none` models a NaN/nodata pixel,
  `some q` a valid temperature (rationals model the float values exactly
  on the inputs of interest).
* Python functions that can raise are embedded as `Except String _`,
  the error string modelling `str(e)` of the raised exception.
* A Python function that can fall off its end without a `return`
  (returning `None`) is embedded with result type `Option String`.
* Wall-clock values (`datetime.now()`, `last_request_time`) and
  Streamlit display calls (`st.info`, `st.warning`, ...) are not
  modelled: they do not influence any value or counter under study.
* `time.sleep(w)` is modelled by recording `w` in a list of waits.
-/

/-! ### String helpers (Python `lower` / `strip` / `split` / `in`) -/

/-- Apostrophe character, spliced into string literals. -/
def apos : String := String.singleton (Char.ofNat 39)

/-- Python `str.lower()` (character-wise lowering). -/
def py_lower (s : String) : String := ⟨s.data.map Char.toLower⟩

/-- Test whether the first list is a prefix of the second. -/
def subAt : List Char → List Char → Bool
  | [], _ => true
  | _ :: _, [] => false
  | c :: cs, d :: ds => c == d && subAt cs ds

/-- Test whether `nd` occurs as a contiguous sublist. -/
def hasSub (nd : List Char) : List Char → Bool
  | [] => nd.isEmpty
  | c :: cs => subAt nd (c :: cs) || hasSub nd cs

/-- Python `needle in hay` on strings (substring containment). -/
def strContains (hay needle : String) : Bool := hasSub needle.data hay.data

/-- Python `str.strip()`: drop leading and trailing whitespace. -/
def py_strip (s : String) : String :=
  ⟨((s.data.dropWhile Char.isWhitespace).reverse.dropWhile Char.isWhitespace).reverse⟩

/-- Accumulator-based splitting on whitespace runs, used by `py_words`. -/
def wordsAux : List Char → List Char → List String
  | [], acc => if acc.isEmpty then [] else [⟨acc.reverse⟩]
  | c :: cs, acc =>
    if c.isWhitespace then
      (if acc.isEmpty then wordsAux cs [] else (⟨acc.reverse⟩ : String) :: wordsAux cs [])
    else wordsAux cs (c :: acc)

/-- Python `str.split()` with no argument: split on whitespace runs,
discarding empty pieces. -/
def py_words (s : String) : List String := wordsAux s.data []

/-! ### Numeric formatting

Python renders floats into the user-visible strings with `:.1f` / `:.2f` /
`:.3f`. We model this with exact fixed-point rendering of the rational
value (rounding half up; the bit-level rounding of binary floats is not
modelled — no theorem below depends on the rendered digits, only on which
numbers appear inside which messages). -/

/-- Pad a digit string on the left with zeros up to width `d`. -/
def padZeros (d : ℕ) (s : String) : String :=
  if s.length < d then (⟨List.replicate (d - s.length) (Char.ofNat 48)⟩ : String) ++ s else s

/-- Fixed-point rendering of a rational with `d` decimal places. -/
def fmtFixed (d : ℕ) (q : ℚ) : String :=
  let p : ℤ := 10 ^ d
  let n : ℤ := ⌊q * (p : ℚ) + 1/2⌋
  let body := toString (n.natAbs / p.natAbs) ++ "." ++ padZeros d (toString (n.natAbs % p.natAbs))
  if n < 0 then "-" ++ body else body

/-- Python `f"{q:.1f}"`. -/
def fmt1 (q : ℚ) : String := fmtFixed 1 q

/-- Python `f"{q:.2f}"`. -/
def fmt2 (q : ℚ) : String := fmtFixed 2 q

open Classical in
/-- Rendering of a real number (used only for the standard deviation and
the skewness/kurtosis values, which involve a square root). Defined for
real numbers that happen to be rational; no theorem inspects its output. -/
noncomputable def fmtRealFixed (d : ℕ) (x : ℝ) : String :=
  if h : ∃ q : ℚ, (q : ℝ) = x then fmtFixed d h.choose else "nan"

/-! ### Statistics engine (`compute_lst_statistics` and numpy helpers) -/

/-- A raster grid: `none` is a NaN/nodata pixel. -/
abbrev Grid := List (Option ℚ)

/-- Python `data[~np.isnan(data)]`: the valid pixels, in order. -/
def validData (data : Grid) : List ℚ := data.filterMap id

/-- Ascending sort of the valid pixels (`np.sort` semantics: any sorted
permutation of a multiset of rationals is unique). -/
def np_sorted (xs : List ℚ) : List ℚ := List.insertionSort (· ≤ ·) xs

/-- Python `np.min(valid_data)` (sentinel 0 on the empty list, on which
numpy would raise; never used on an empty list below). -/
def np_min : List ℚ → ℚ
  | [] => 0
  | x :: xs => xs.foldl min x

/-- Python `np.max(valid_data)` (same convention as `np_min`). -/
def np_max : List ℚ → ℚ
  | [] => 0
  | x :: xs => xs.foldl max x

/-- Python `np.mean`. -/
def np_mean (xs : List ℚ) : ℚ := xs.sum / (xs.length : ℚ)

/-- Population variance, the square of `np.std` (numpy default `ddof=0`). -/
def np_var (xs : List ℚ) : ℚ := np_mean (xs.map (fun x => (x - np_mean xs) ^ 2))

/-- Python `np.std` (population standard deviation). -/
noncomputable def np_std (xs : List ℚ) : ℝ := Real.sqrt (np_var xs)

/-- Fractional rank used by `np.percentile` with linear interpolation:
`rank = q / 100 * (n - 1)`. -/
def np_rank (xs : List ℚ) (q : ℚ) : ℚ := q * ((xs.length : ℚ) - 1) / 100

/-- Lower interpolation index `⌊rank⌋` of `np.percentile`. -/
def np_idx (xs : List ℚ) (q : ℚ) : ℕ := (⌊np_rank xs q⌋).toNat

/-- Python `np.percentile(xs, q)` with the default linear interpolation:
`a[i] + (rank - i) * (a[min(i+1, n-1)] - a[i])` over the sorted data. -/
def np_percentile (xs : List ℚ) (q : ℚ) : ℚ :=
  let s := np_sorted xs
  let lo := s.getD (np_idx xs q) 0
  let hi := s.getD (min (np_idx xs q + 1) (xs.length - 1)) 0
  lo + (np_rank xs q - (np_idx xs q : ℚ)) * (hi - lo)

/-- Python `np.median`, which coincides with the linear-interpolated
50th percentile. -/
def np_median (xs : List ℚ) : ℚ := np_percentile xs 50

/-- The dictionary returned by `compute_lst_statistics`. -/
structure LstStats where
  min_temp : ℚ
  max_temp : ℚ
  mean_temp : ℚ
  median_temp : ℚ
  std_temp : ℝ
  temp_range : ℚ
  percentile_25 : ℚ
  percentile_75 : ℚ
  hot_pixels : ℕ
  cold_pixels : ℕ
  total_pixels : ℕ

instance : Inhabited LstStats := ⟨⟨0, 0, 0, 0, 0, 0, 0, 0, 0, 0, 0⟩⟩

/-- `compute_lst_statistics(data)`: `none` models the empty dict `{}`
returned when `data is None` or no valid pixel remains. -/
noncomputable def compute_lst_statistics (data : Option Grid) : Option LstStats :=
  match data with
  | none => none
  | some d =>
    let valid_data := validData d
    if valid_data = [] then none
    else some {
      min_temp := np_min valid_data
      max_temp := np_max valid_data
      mean_temp := np_mean valid_data
      median_temp := np_median valid_data
      std_temp := np_std valid_data
      temp_range := np_max valid_data - np_min valid_data
      percentile_25 := np_percentile valid_data 25
      percentile_75 := np_percentile valid_data 75
      hot_pixels := valid_data.countP (fun x => decide (np_percentile valid_data 90 < x))
      cold_pixels := valid_data.countP (fun x => decide (x < np_percentile valid_data 10))
      total_pixels := valid_data.length }

/-! ### Skewness and kurtosis (`calculate_skewness` / `calculate_kurtosis`)

The Python source guards only `std == 0` (equivalently, zero variance:
`np.std` is the square root of the nonnegative variance). When the guard
is not taken and the integer denominator `(n-1)*(n-2)` — respectively
`(n-1)*(n-2)*(n-3)` — is zero, the pure-`int` Python division raises
`ZeroDivisionError` before the numpy sum is consumed; this is modelled by
`Except.error "division by zero"` (the `str` of that exception). -/

/-- `calculate_skewness(data)`. -/
noncomputable def calculate_skewness (data : List ℚ) : Except String ℝ :=
  let mean := np_mean data
  let n : ℤ := data.length
  if np_var data = 0 then .ok 0
  else if (n - 1) * (n - 2) = 0 then .error "division by zero"
  else .ok (((n : ℝ) / (((n : ℝ) - 1) * ((n : ℝ) - 2))) *
    (data.map (fun x => (((x : ℝ) - (mean : ℝ)) / np_std data) ^ 3)).sum)

/-- `calculate_kurtosis(data)`. When `(n-1)*(n-2)*(n-3) ≠ 0` the second
denominator `(n-2)*(n-3)` is automatically nonzero as well, so a single
guard models both Python divisions. -/
noncomputable def calculate_kurtosis (data : List ℚ) : Except String ℝ :=
  let mean := np_mean data
  let n : ℤ := data.length
  if np_var data = 0 then .ok 3
  else if (n - 1) * (n - 2) * (n - 3) = 0 then .error "division by zero"
  else .ok ((((n : ℝ) * ((n : ℝ) + 1) / (((n : ℝ) - 1) * ((n : ℝ) - 2) * ((n : ℝ) - 3))) *
      (data.map (fun x => (((x : ℝ) - (mean : ℝ)) / np_std data) ^ 4)).sum -
      3 * ((n : ℝ) - 1) ^ 2 / (((n : ℝ) - 2) * ((n : ℝ) - 3))) + 3)

/-! ### Environmental classifier -/

/-- `calculate_thermal_comfort(mean_temp)`. -/
def calculate_thermal_comfort (mean_temp : ℚ) : String :=
  if 18 ≤ mean_temp ∧ mean_temp ≤ 24 then "Optimal Comfort"
  else if (15 ≤ mean_temp ∧ mean_temp < 18) ∨ (24 < mean_temp ∧ mean_temp ≤ 27) then
    "Acceptable Comfort"
  else if (12 ≤ mean_temp ∧ mean_temp < 15) ∨ (27 < mean_temp ∧ mean_temp ≤ 30) then
    "Slight Discomfort"
  else if mean_temp < 12 ∨ mean_temp > 30 then "Significant Discomfort"
  else "Unknown"

open Classical in
/-- `assess_environmental_risk(stats)`. The comparisons on the standard
deviation are comparisons on the real number `std_temp`. -/
noncomputable def assess_environmental_risk (stats : LstStats) : String :=
  let risk1 : ℕ :=
    if stats.max_temp > 40 then 3 else if stats.max_temp > 35 then 2
    else if stats.max_temp > 30 then 1 else 0
  let risk2 : ℕ :=
    if stats.std_temp > (5 : ℝ) then 2 else if stats.std_temp > (3 : ℝ) then 1 else 0
  let risk3 : ℕ :=
    if stats.temp_range > 15 then 2 else if stats.temp_range > 10 then 1 else 0
  let risk_factors := risk1 + risk2 + risk3
  if risk_factors ≥ 5 then "High Risk"
  else if risk_factors ≥ 3 then "Moderate Risk"
  else if risk_factors ≥ 1 then "Low Risk"
  else "Minimal Risk"

/-- The `climate_indicators` sub-dictionary of the context. -/
structure ClimateIndicators where
  uhi_intensity : String
  uhi_level : String
  temperature_stress_level : String
  thermal_comfort_index : String
  environmental_risk_level : String

/-- `calculate_climate_indicators(stats)`. -/
noncomputable def calculate_climate_indicators (stats : LstStats) : ClimateIndicators :=
  let uhi_intensity := stats.max_temp - stats.min_temp
  let uhi_level :=
    if uhi_intensity > 10 then "Very Strong"
    else if uhi_intensity > 7 then "Strong"
    else if uhi_intensity > 5 then "Moderate"
    else if uhi_intensity > 3 then "Weak"
    else "Very Weak"
  let stress_level :=
    if stats.mean_temp > 35 then "Extreme Heat Stress"
    else if stats.mean_temp > 30 then "High Heat Stress"
    else if stats.mean_temp > 25 then "Moderate Heat Stress"
    else if stats.mean_temp > 20 then "Low Heat Stress"
    else "No Heat Stress"
  { uhi_intensity := fmt2 uhi_intensity ++ "°C"
    uhi_level := uhi_level
    temperature_stress_level := stress_level
    thermal_comfort_index := calculate_thermal_comfort stats.mean_temp
    environmental_risk_level := assess_environmental_risk stats }

/-- `classify_heat_levels(stats, valid_data)` (the `stats` argument is
unused by the Python body, which works from percentiles of the data). -/
def classify_heat_levels (_stats : LstStats) (valid_data : List ℚ) : List (String × String) :=
  let extreme_hot := np_percentile valid_data 95
  let very_hot := np_percentile valid_data 90
  let hot := np_percentile valid_data 75
  let cool := np_percentile valid_data 25
  let very_cool := np_percentile valid_data 10
  [("extreme_hot_threshold", fmt2 extreme_hot ++ "°C"),
   ("very_hot_threshold", fmt2 very_hot ++ "°C"),
   ("hot_threshold", fmt2 hot ++ "°C"),
   ("moderate_range", fmt2 cool ++ "°C - " ++ fmt2 hot ++ "°C"),
   ("cool_threshold", fmt2 cool ++ "°C"),
   ("very_cool_threshold", fmt2 very_cool ++ "°C")]

/-- The `spatial_distribution` sub-dictionary. -/
structure SpatialDistribution where
  distribution_shape : String
  skewness_value : String
  kurtosis_value : String
  distribution_type : String
  data_concentration : String

open Classical in
/-- `analyze_spatial_distribution(valid_data)`; an uncaught
`ZeroDivisionError` from the skewness/kurtosis helpers propagates. -/
noncomputable def analyze_spatial_distribution (valid_data : List ℚ) :
    Except String SpatialDistribution :=
  match calculate_skewness valid_data with
  | .error e => .error e
  | .ok skewness =>
    match calculate_kurtosis valid_data with
    | .error e => .error e
    | .ok kurtosis =>
      .ok {
        distribution_shape :=
          if skewness > (0.5 : ℝ) then "right-skewed"
          else if skewness < (-0.5 : ℝ) then "left-skewed"
          else "approximately normal"
        skewness_value := fmtRealFixed 3 skewness
        kurtosis_value := fmtRealFixed 3 kurtosis
        distribution_type :=
          if kurtosis > (3 : ℝ) then "heavy-tailed"
          else if kurtosis < (3 : ℝ) then "light-tailed"
          else "normal-tailed"
        data_concentration :=
          if |skewness| < (0.5 : ℝ) ∧ |kurtosis - 3| < (1 : ℝ) then "concentrated around mean"
          else "dispersed" }

/-- The context dictionary built by `prepare_context_data` (the
`analysis_timestamp` wall-clock field is not modelled). -/
structure ContextData where
  location : String
  data_type : String
  statistics : List (String × String)
  heat_classification : List (String × String)
  spatial_distribution : SpatialDistribution
  climate_indicators : ClimateIndicators

/-- `prepare_context_data(stats, data)`: `.ok none` models returning
`None`; `.error` models a propagated `ZeroDivisionError` from
`analyze_spatial_distribution`. Pixel counts are rendered with
`toString` (the `{:,}` thousands separator is not modelled). -/
noncomputable def prepare_context_data (stats : Option LstStats) (data : Option Grid) :
    Except String (Option ContextData) :=
  match stats, data with
  | none, _ => .ok none
  | some _, none => .ok none
  | some st, some d =>
    let valid_data := validData d
    if valid_data = [] then .ok none
    else
      let percentile_90 := np_percentile valid_data 90
      let percentile_10 := np_percentile valid_data 10
      let heat_island_intensity := st.max_temp - st.mean_temp
      match analyze_spatial_distribution valid_data with
      | .error e => .error e
      | .ok sd =>
        .ok (some {
          location := "Kilimani area, Nairobi, Kenya"
          data_type := "Land Surface Temperature (LST) from satellite imagery"
          statistics := [
            ("min_temperature", fmt2 st.min_temp ++ "°C"),
            ("max_temperature", fmt2 st.max_temp ++ "°C"),
            ("mean_temperature", fmt2 st.mean_temp ++ "°C"),
            ("median_temperature", fmt2 st.median_temp ++ "°C"),
            ("temperature_range", fmt2 st.temp_range ++ "°C"),
            ("standard_deviation", fmtRealFixed 2 st.std_temp ++ "°C"),
            ("percentile_25", fmt2 st.percentile_25 ++ "°C"),
            ("percentile_75", fmt2 st.percentile_75 ++ "°C"),
            ("percentile_90", fmt2 percentile_90 ++ "°C"),
            ("percentile_10", fmt2 percentile_10 ++ "°C"),
            ("hot_pixels_count", toString st.hot_pixels),
            ("cold_pixels_count", toString st.cold_pixels),
            ("hot_pixels_percentage",
              fmt1 ((st.hot_pixels : ℚ) / (st.total_pixels : ℚ) * 100) ++ "%"),
            ("cold_pixels_percentage",
              fmt1 ((st.cold_pixels : ℚ) / (st.total_pixels : ℚ) * 100) ++ "%"),
            ("total_pixels", toString st.total_pixels),
            ("heat_island_intensity", fmt2 heat_island_intensity ++ "°C"),
            ("temperature_variability_index",
              fmtRealFixed 1 (st.std_temp / (st.mean_temp : ℝ) * 100) ++ "%")]
          heat_classification := classify_heat_levels st valid_data
          spatial_distribution := sd
          climate_indicators := calculate_climate_indicators st })

/-! ### Response-quality validation (`validate_response_quality`) -/

/-- The fixed refusal/error phrases checked by the validator. -/
def error_indicators : List String :=
  ["i don" ++ apos ++ "t have access",
   "i cannot access",
   "i" ++ apos ++ "m unable to",
   "error occurred",
   "something went wrong"]

/-- `validate_response_quality(response_text)`: the pair `(is_valid, message)`. -/
def validate_response_quality (response_text : String) : Bool × String :=
  if response_text = "" || decide ((py_strip response_text).length < 10) then
    (false, "Response too short or empty")
  else
    let response_lower := py_lower response_text
    match error_indicators.find? (fun indicator => strContains response_lower indicator) with
    | some indicator => (false, "Response contains error indicator: " ++ indicator)
    | none =>
      if (py_words response_text).length < 5 then (false, "Response lacks sufficient detail")
      else (true, "Response quality acceptable")

/-! ### Rate limiting (`handle_api_rate_limiting`) -/

/-- Result of `handle_api_rate_limiting`: the seconds slept via
`time.sleep` (as a list of waits), the `can_retry` flag and the message. -/
structure RateLimitResult where
  waits : List ℕ
  can_retry : Bool
  message : String
deriving DecidableEq

/-- `handle_api_rate_limiting(retry_count=0, max_retries=3)`. -/
def handle_api_rate_limiting (retry_count : ℕ := 0) (max_retries : ℕ := 3) : RateLimitResult :=
  if retry_count ≥ max_retries then
    ⟨[], false, "Maximum retry attempts exceeded. Please try again later."⟩
  else
    let wait_time := 2 ^ retry_count
    ⟨[wait_time], true, "Retrying after " ++ toString wait_time ++ " second delay"⟩

/-! ### Error recovery (`create_error_recovery_response`) -/

/-- `create_error_recovery_response(error_type, question, stats)` (the
`question` argument is unused by the Python body). -/
def create_error_recovery_response (error_type : String) (_question : String)
    (stats : LstStats) : String :=
  let base_stats := "Based on available data: Temperature range " ++
    (fmt1 stats.temp_range ++ "°C") ++ (", Average " ++ (fmt1 stats.mean_temp ++ "°C"))
  if error_type = "authentication" then
    "🔐 **Authentication Issue**: Unable to connect to Azure OpenAI. " ++ base_stats ++
      ". Please check API credentials."
  else if error_type = "rate_limit" then
    "⏱️ **Rate Limit**: Too many requests. " ++ base_stats ++
      ". Please wait a moment before asking again."
  else if error_type = "network" then
    "🌐 **Network Issue**: Connection problem. " ++ base_stats ++
      ". Please check your internet connection."
  else if error_type = "timeout" then
    "⏰ **Timeout**: Request took too long. " ++ base_stats ++
      ". Please try a simpler question."
  else
    "⚠️ **Service Issue**: AI service temporarily unavailable. " ++ base_stats ++
      ". Using basic analysis instead."

/-- Error classification of `create_ai_response`'s `except` handler
(inline in the Python source: substring tests on `str(e).lower()`). -/
def classify_error_type (error_str : String) : String :=
  if strContains error_str "rate limit" || strContains error_str "quota" then "rate_limit"
  else if strContains error_str "authentication" || strContains error_str "unauthorized" then
    "authentication"
  else if strContains error_str "timeout" then "timeout"
  else if strContains error_str "network" || strContains error_str "connection" then "network"
  else "unknown"

/-! ### Rule-based responder (`create_fallback_response`) -/

/-- `create_fallback_response(question, stats, data)`.

The result is `.error e` when the Python function raises (it calls
`prepare_context_data` before branching, and the heat-island branch
applies `np.isnan` to `data`, a `TypeError` when `data is None`), and
otherwise `.ok r` where `r : Option String` is the returned value —
`.ok none` models the Python control flow falling off the end of the
function (the temperature branch has no default sub-branch). -/
noncomputable def create_fallback_response (question : String) (stats : LstStats)
    (data : Option Grid) : Except String (Option String) :=
  let question_lower := py_lower question
  match prepare_context_data (some stats) data with
  | .error e => .error e
  | .ok context_data =>
    let climate_indicators := context_data.map (·.climate_indicators)
    if ["temperature", "temp", "hot", "cold", "warm"].any
        (fun word => strContains question_lower word) then
      if strContains question_lower "highest" || strContains question_lower "maximum" ||
          strContains question_lower "hottest" then
        .ok (some ("🌡️ **Temperature Analysis**: The highest temperature recorded in the Kilimani area is **" ++
          fmt2 stats.max_temp ++
          "°C**. This represents the hottest surface temperature detected in the satellite imagery, likely corresponding to built-up areas with minimal vegetation or water bodies." ++
          (match climate_indicators with
           | some ci =>
             "\n\n**Environmental Context**: This falls under the **" ++
               ci.temperature_stress_level ++ "** category and indicates **" ++
               ci.uhi_level ++ "** urban heat island intensity."
           | none => "")))
      else if strContains question_lower "lowest" || strContains question_lower "minimum" ||
          strContains question_lower "coldest" then
        .ok (some ("❄️ **Cool Zones**: The lowest temperature recorded is **" ++
          fmt2 stats.min_temp ++
          "°C**. These cooler areas typically represent locations with vegetation, water bodies, or shaded areas that provide natural cooling effects." ++
          (match climate_indicators with
           | some ci =>
             "\n\n**Thermal Comfort**: The overall area shows **" ++
               ci.thermal_comfort_index ++ "** conditions."
           | none => "")))
      else if strContains question_lower "average" || strContains question_lower "mean" then
        .ok (some ("📊 **Average Conditions**: The average surface temperature across Kilimani is **" ++
          fmt2 stats.mean_temp ++ "°C**, with a standard deviation of **" ++
          fmtRealFixed 2 stats.std_temp ++
          "°C**. This indicates moderate temperature variability across the area." ++
          (match climate_indicators with
           | some ci =>
             "\n\n**Assessment**: This represents **" ++ ci.temperature_stress_level ++
               "** with **" ++ ci.environmental_risk_level ++ "** environmental risk."
           | none => "")))
      else if strContains question_lower "range" then
        .ok (some ("📏 **Temperature Span**: The temperature range spans **" ++
          fmt2 stats.temp_range ++ "°C**, from **" ++ fmt2 stats.min_temp ++ "°C** to **" ++
          fmt2 stats.max_temp ++
          "°C**. This significant range suggests diverse land use patterns affecting local temperatures." ++
          (match climate_indicators with
           | some ci =>
             "\n\n**UHI Analysis**: This range indicates **" ++ ci.uhi_level ++
               "** urban heat island effects with intensity of **" ++ ci.uhi_intensity ++ "**."
           | none => "")))
      else
        -- No sub-branch matched: Python falls off the end of the function.
        .ok none
    else if ["heat island", "urban heat", "hot spots", "hotspots"].any
        (fun word => strContains question_lower word) then
      match data with
      | none => .error "bad operand type for unary ~: NoneType"
      | some d =>
        let hot_percentage := (stats.hot_pixels : ℚ) / (stats.total_pixels : ℚ) * 100
        let threshold_90 := np_percentile (validData d) 90
        .ok (some ("🔥 **Heat Island Analysis**: Approximately **" ++ fmt1 hot_percentage ++
          "%** of the Kilimani area shows heat island characteristics (temperatures above **" ++
          fmt2 threshold_90 ++ "°C**)." ++
          (match climate_indicators with
           | some ci =>
             "\n\n**Classification**: **" ++ ci.uhi_level ++ "** UHI intensity with **" ++
               ci.environmental_risk_level ++ "** environmental risk."
           | none => "") ++
          "\n\n**Typical Heat Island Areas**:\n• Dense urban development\n• Areas with minimal vegetation\n• Commercial and industrial zones\n• Paved surfaces and buildings\n\n**💡 Recommendation**: Increase green spaces and tree coverage in these areas to mitigate heat island effects."))
    else if ["statistics", "stats", "distribution"].any
        (fun word => strContains question_lower word) then
      .ok (some ("📈 **Statistical Summary for Kilimani LST Data**:\n\n• **Mean Temperature**: " ++
        fmt2 stats.mean_temp ++ "°C\n• **Median Temperature**: " ++ fmt2 stats.median_temp ++
        "°C\n• **Standard Deviation**: " ++ fmtRealFixed 2 stats.std_temp ++
        "°C\n• **25th Percentile**: " ++ fmt2 stats.percentile_25 ++
        "°C\n• **75th Percentile**: " ++ fmt2 stats.percentile_75 ++
        "°C\n• **Temperature Range**: " ++ fmt2 stats.temp_range ++
        "°C\n• **Total Data Points**: " ++ toString stats.total_pixels ++ " pixels" ++
        (match climate_indicators with
         | some ci =>
           "\n\n**Environmental Assessment**:\n• **UHI Level**: " ++ ci.uhi_level ++
             "\n• **Thermal Comfort**: " ++ ci.thermal_comfort_index ++
             "\n• **Environmental Risk**: " ++ ci.environmental_risk_level
         | none => "")))
    else if ["area", "location", "where", "kilimani"].any
        (fun word => strContains question_lower word) then
      .ok (some ("🗺️ **Study Area**: This analysis covers the **Kilimani area in Nairobi, Kenya**. The data reveals surface temperature variations across different land use types:\n\n• **Residential areas**: Mixed temperature patterns\n• **Commercial zones**: Generally warmer due to built infrastructure\n• **Green spaces**: Cooler temperatures providing natural cooling\n• **Road networks**: Elevated temperatures from asphalt surfaces" ++
        (match climate_indicators with
         | some ci =>
           "\n\n**Overall Assessment**: The area shows **" ++ ci.uhi_level ++
             "** urban heat island effects with **" ++ ci.thermal_comfort_index ++
             "** thermal conditions."
         | none => "")))
    else if ["data", "source", "satellite", "how"].any
        (fun word => strContains question_lower word) then
      .ok (some ("🛰️ **Data Source & Methodology**:\n\n**Land Surface Temperature (LST)** data is derived from satellite imagery, specifically measuring the temperature of the Earth" ++
        apos ++
        "s surface as observed from space.\n\n**Key Points**:\n• Different from air temperature measured by weather stations\n• Excellent for identifying urban heat islands\n• Useful for environmental monitoring and urban planning\n• Provides spatial temperature patterns across large areas\n• Helps identify areas needing climate adaptation measures\n\n**Current Dataset**: Covers " ++
        toString stats.total_pixels ++ " measurement points across Kilimani area."))
    else
      .ok (some ("🌍 **Kilimani LST Analysis Overview**:\n\n**Key Findings**:\n• Temperature range: **" ++
        fmt2 stats.temp_range ++ "°C** (from " ++ fmt2 stats.min_temp ++ "°C to " ++
        fmt2 stats.max_temp ++ "°C)\n• Average temperature: **" ++ fmt2 stats.mean_temp ++
        "°C**\n• Heat island areas: **" ++
        fmt1 ((stats.hot_pixels : ℚ) / (stats.total_pixels : ℚ) * 100) ++
        "%** of total area\n• Data coverage: **" ++ toString stats.total_pixels ++
        "** measurement points" ++
        (match climate_indicators with
         | some ci =>
           "\n\n**Environmental Assessment**:\n• **UHI Level**: " ++ ci.uhi_level ++
             "\n• **Thermal Comfort**: " ++ ci.thermal_comfort_index ++
             "\n• **Environmental Risk**: " ++ ci.environmental_risk_level
         | none => "") ++
        "\n\n**Environmental Insights**:\n• Significant temperature variations suggest diverse land use\n• Heat island effects present in built-up areas\n• Opportunities for green infrastructure improvements\n\n💡 **Ask me specific questions about temperatures, heat islands, statistics, or environmental recommendations!**"))

/-! ### Response formatting (`format_ai_response`) -/

/-- `format_ai_response(response, analysis_mode)`. -/
def format_ai_response (response : String) (analysis_mode : String) : String :=
  let mode_indicator :=
    if analysis_mode = "Technical" then "🔬 **Technical Analysis**"
    else if analysis_mode = "Comprehensive" then "📊 **Comprehensive Analysis**"
    else if analysis_mode = "Simple" then "📝 **Simple Explanation**"
    else "🤖 **AI Analysis**"
  let formatted_response := mode_indicator ++ "\n\n" ++ response
  let footer := "\n\n---\n*Analysis based on Kilimani LST satellite data • Generated using Azure OpenAI • Mode: " ++
    analysis_mode ++ "*"
  formatted_response ++ footer

/-! ### Orchestrator (`create_ai_response`)

The two external collaborators are modelled as inputs: `client` is
whether `get_cached_azure_client()` returns a client (all four
configuration slots present), and `api` is the outcome the configured
model produces for the single `chat.completions.create` call the source
makes (the source contains no retry loop — on a rate-limit error it
calls `handle_api_rate_limiting()` once with the default
`retry_count=0`, notes "Could implement retry logic here", and falls
through). -/

/-- Outcome of the external chat-completion call: the generated text, or
the `str(e)` of a raised exception. -/
inductive ApiResult where
  | success (text : String)
  | failure (errMsg : String)

/-- One recorded call to `log_api_request` (its arguments). -/
structure ApiLogCall where
  success : Bool
  error_type : Option String
  fallback_used : Bool
deriving DecidableEq

/-- Observable behaviour of one `create_ai_response` query: the returned
value (`none` models Python `None`), the `log_api_request` calls made in
order, the seconds slept, and whether `create_fallback_response` ran. -/
structure OrchTrace where
  response : Option String
  logs : List ApiLogCall
  waits : List ℕ
  fallback_invoked : Bool

/-- `create_ai_response(question, stats, data, analysis_mode)`. The
result is `.error e` if the query raises to the caller (only possible
from the unconfigured-client path, whose `create_fallback_response` call
sits outside the `try`), and `.ok` with the trace otherwise. -/
noncomputable def create_ai_response (question : String) (stats : Option LstStats)
    (data : Option Grid) (client : Bool) (api : ApiResult) (analysis_mode : String) :
    Except String OrchTrace :=
  match stats with
  | none =>
    .ok { response := some ("I don" ++ apos ++
            "t have enough data to analyze. Please ensure the LST data is loaded properly.")
          logs := [], waits := [], fallback_invoked := false }
  | some st =>
    if client = false then
      match create_fallback_response question st data with
      | .error e => .error e
      | .ok r => .ok { response := r, logs := [], waits := [], fallback_invoked := true }
    else
      -- The body of the `try` block.
      let tryResult : Except String OrchTrace :=
        match prepare_context_data (some st) data with
        | .error e => .error e
        | .ok none =>
          match create_fallback_response question st data with
          | .error e => .error e
          | .ok r => .ok { response := r, logs := [], waits := [], fallback_invoked := true }
        | .ok (some _context) =>
          match api with
          | .failure errMsg => .error errMsg
          | .success ai_response =>
            if (validate_response_quality ai_response).1 = false then
              match create_fallback_response question st data with
              | .error e => .error e
              | .ok r =>
                .ok { response := r
                      logs := [⟨false, some "quality", true⟩]
                      waits := [], fallback_invoked := true }
            else
              .ok { response := some (format_ai_response ai_response analysis_mode)
                    logs := [⟨true, none, false⟩]
                    waits := [], fallback_invoked := false }
      -- The `except` handler.
      match tryResult with
      | .ok tr => .ok tr
      | .error e =>
        let error_str := py_lower e
        let error_type := classify_error_type error_str
        let waits :=
          if error_type = "rate_limit" then (handle_api_rate_limiting).waits else []
        .ok { response := some (create_error_recovery_response error_type question st)
              logs := [⟨false, some error_type, true⟩]
              waits := waits, fallback_invoked := false }

/-! ### Usage statistics (`monitor_api_usage` / `log_api_request`) -/

/-- The session-state counters dictionary (`last_request_time` is a
wall-clock value and is not modelled). The `error_types` dictionary is
an insertion-ordered association list, like a Python dict. -/
structure UsageStats where
  total_requests : ℕ
  successful_requests : ℕ
  failed_requests : ℕ
  fallback_requests : ℕ
  error_types : List (String × ℕ)
deriving DecidableEq

/-- `monitor_api_usage()`: the zeroed counters installed on first use. -/
def monitor_api_usage : UsageStats :=
  { total_requests := 0, successful_requests := 0, failed_requests := 0
    fallback_requests := 0, error_types := [] }

/-- Python `d[k] = d.get(k, 0) + 1` on an insertion-ordered dict. -/
def dictIncr : List (String × ℕ) → String → List (String × ℕ)
  | [], k => [(k, 1)]
  | (k0, v) :: rest, k =>
    if k0 = k then (k0, v + 1) :: rest else (k0, v) :: dictIncr rest k

/-- `log_api_request(success=True, error_type=None, fallback_used=False)`
as a transition on the counters. -/
def log_api_request (stats : UsageStats) (success : Bool := true)
    (error_type : Option String := none) (fallback_used : Bool := false) : UsageStats :=
  let s1 := { stats with total_requests := stats.total_requests + 1 }
  let s2 :=
    if success then { s1 with successful_requests := s1.successful_requests + 1 }
    else
      { s1 with failed_requests := s1.failed_requests + 1
                error_types :=
                  match error_type with
                  | some t => dictIncr s1.error_types t
                  | none => s1.error_types }
  if fallback_used then { s2 with fallback_requests := s2.fallback_requests + 1 } else s2

/-- The arguments of one `log_api_request` call. -/
structure ApiRequestLog where
  success : Bool
  error_type : Option String
  fallback_used : Bool

/-- Folding a sequence of `log_api_request` calls over a counters state. -/
def apply_requests (s : UsageStats) (reqs : List ApiRequestLog) : UsageStats :=
  reqs.foldl (fun acc r => log_api_request acc r.success r.error_type r.fallback_used) s

/-- Sum of the per-error-type occurrence counts. -/
def errSum (m : List (String × ℕ)) : ℕ := (m.map Prod.snd).sum

/-! ### Order lemmas for the percentile machinery -/

theorem np_sorted_sorted (xs : List ℚ) : List.Sorted (· ≤ ·) (np_sorted xs) :=
  List.sorted_insertionSort _ xs

theorem np_sorted_perm (xs : List ℚ) : (np_sorted xs).Perm xs :=
  List.perm_insertionSort _ xs

theorem np_sorted_length (xs : List ℚ) : (np_sorted xs).length = xs.length :=
  (np_sorted_perm xs).length_eq

theorem sorted_getD_mono {s : List ℚ} (hs : List.Sorted (· ≤ ·) s) {i j : ℕ}
    (hij : i ≤ j) (hj : j < s.length) : s.getD i 0 ≤ s.getD j 0 := by
  rcases Nat.lt_or_ge i j with hlt | hge
  · rw [List.getD_eq_getElem _ _ (lt_trans hlt hj), List.getD_eq_getElem _ _ hj]
    have := hs.rel_get_of_lt (a := ⟨i, lt_trans hlt hj⟩) (b := ⟨j, hj⟩) (by exact hlt)
    simpa using this
  · have : i = j := le_antisymm hij hge
    subst this
    exact le_refl _

theorem getD_mem_of_lt {s : List ℚ} {i : ℕ} (h : i < s.length) : s.getD i 0 ∈ s := by
  rw [List.getD_eq_getElem _ _ h]
  exact List.getElem_mem h

theorem foldl_min_le_init (t : List ℚ) (a : ℚ) : t.foldl min a ≤ a := by
  induction t generalizing a with
  | nil => exact le_refl a
  | cons x t ih =>
    rw [List.foldl_cons]
    exact le_trans (ih (min a x)) (min_le_left a x)

theorem foldl_min_le_mem (t : List ℚ) (a y : ℚ) (hy : y ∈ t) : t.foldl min a ≤ y := by
  induction t generalizing a with
  | nil => cases hy
  | cons x t ih =>
    rw [List.foldl_cons]
    rcases List.mem_cons.mp hy with rfl | hy'
    · exact le_trans (foldl_min_le_init t (min a y)) (min_le_right a y)
    · exact ih (min a x) hy'

theorem np_min_le_mem (xs : List ℚ) (y : ℚ) (hy : y ∈ xs) : np_min xs ≤ y := by
  cases xs with
  | nil => cases hy
  | cons x t =>
    show t.foldl min x ≤ y
    rcases List.mem_cons.mp hy with rfl | hy'
    · exact foldl_min_le_init t y
    · exact foldl_min_le_mem t x y hy'

theorem le_foldl_max_init (t : List ℚ) (a : ℚ) : a ≤ t.foldl max a := by
  induction t generalizing a with
  | nil => exact le_refl a
  | cons x t ih =>
    rw [List.foldl_cons]
    exact le_trans (le_max_left a x) (ih (max a x))

theorem mem_le_foldl_max (t : List ℚ) (a y : ℚ) (hy : y ∈ t) : y ≤ t.foldl max a := by
  induction t generalizing a with
  | nil => cases hy
  | cons x t ih =>
    rw [List.foldl_cons]
    rcases List.mem_cons.mp hy with rfl | hy'
    · exact le_trans (le_max_right a y) (le_foldl_max_init t (max a y))
    · exact ih (max a x) hy'

theorem mem_le_np_max (xs : List ℚ) (y : ℚ) (hy : y ∈ xs) : y ≤ np_max xs := by
  cases xs with
  | nil => cases hy
  | cons x t =>
    show y ≤ t.foldl max x
    rcases List.mem_cons.mp hy with rfl | hy'
    · exact le_foldl_max_init t y
    · exact mem_le_foldl_max t x y hy'

theorem np_rank_nonneg {xs : List ℚ} (hx : xs ≠ []) {q : ℚ} (hq : 0 ≤ q) :
    0 ≤ np_rank xs q := by
  have h1 : (1 : ℚ) ≤ (xs.length : ℚ) := by exact_mod_cast List.length_pos.mpr hx
  unfold np_rank
  exact div_nonneg (mul_nonneg hq (by linarith)) (by norm_num)

theorem np_rank_le {xs : List ℚ} (hx : xs ≠ []) {q : ℚ} (hq0 : 0 ≤ q) (hq : q ≤ 100) :
    np_rank xs q ≤ (xs.length : ℚ) - 1 := by
  have h1 : (1 : ℚ) ≤ (xs.length : ℚ) := by exact_mod_cast List.length_pos.mpr hx
  unfold np_rank
  rw [div_le_iff (by norm_num : (0:ℚ) < 100)]
  have := mul_le_mul_of_nonneg_right hq (by linarith : (0:ℚ) ≤ (xs.length : ℚ) - 1)
  linarith

theorem np_idx_cast {xs : List ℚ} (hx : xs ≠ []) {q : ℚ} (hq : 0 ≤ q) :
    ((np_idx xs q : ℤ)) = ⌊np_rank xs q⌋ :=
  Int.toNat_of_nonneg (Int.floor_nonneg.mpr (np_rank_nonneg hx hq))

theorem np_idx_le_rank {xs : List ℚ} (hx : xs ≠ []) {q : ℚ} (hq : 0 ≤ q) :
    ((np_idx xs q : ℚ)) ≤ np_rank xs q := by
  have h := np_idx_cast hx hq
  calc ((np_idx xs q : ℚ)) = ((⌊np_rank xs q⌋ : ℤ) : ℚ) := by exact_mod_cast h
  _ ≤ np_rank xs q := Int.floor_le _

theorem rank_lt_idx_add_one {xs : List ℚ} (hx : xs ≠ []) {q : ℚ} (hq : 0 ≤ q) :
    np_rank xs q < (np_idx xs q : ℚ) + 1 := by
  have h := np_idx_cast hx hq
  have h2 := Int.lt_floor_add_one (np_rank xs q)
  have hcast : ((np_idx xs q : ℚ)) = ((⌊np_rank xs q⌋ : ℤ) : ℚ) := by exact_mod_cast h
  rw [hcast]
  exact_mod_cast h2

theorem np_idx_le {xs : List ℚ} (hx : xs ≠ []) {q : ℚ} (hq0 : 0 ≤ q) (hq : q ≤ 100) :
    np_idx xs q ≤ xs.length - 1 := by
  have hlen : 1 ≤ xs.length := List.length_pos.mpr hx
  have hcast : ((xs.length : ℚ) - 1) = (((xs.length : ℤ) - 1 : ℤ) : ℚ) := by push_cast; ring
  have h1 : ⌊np_rank xs q⌋ ≤ (xs.length : ℤ) - 1 := by
    calc ⌊np_rank xs q⌋ ≤ ⌊(((xs.length : ℤ) - 1 : ℤ) : ℚ)⌋ :=
          Int.floor_le_floor (by rw [← hcast]; exact np_rank_le hx hq0 hq)
    _ = (xs.length : ℤ) - 1 := Int.floor_intCast _
  have h2 := np_idx_cast hx hq0
  omega

theorem np_percentile_between {xs : List ℚ} (hx : xs ≠ []) {q : ℚ}
    (hq0 : 0 ≤ q) (hq1 : q ≤ 100) :
    (np_sorted xs).getD (np_idx xs q) 0 ≤ np_percentile xs q ∧
      np_percentile xs q ≤ (np_sorted xs).getD (min (np_idx xs q + 1) (xs.length - 1)) 0 := by
  have hlen : 1 ≤ xs.length := List.length_pos.mpr hx
  have hslen : (np_sorted xs).length = xs.length := np_sorted_length xs
  have hi_le : np_idx xs q ≤ xs.length - 1 := np_idx_le hx hq0 hq1
  have hfrac0 : 0 ≤ np_rank xs q - (np_idx xs q : ℚ) := by
    have := np_idx_le_rank hx hq0; linarith
  have hfrac1 : np_rank xs q - (np_idx xs q : ℚ) ≤ 1 := by
    have := rank_lt_idx_add_one hx hq0; linarith
  have hlohi : (np_sorted xs).getD (np_idx xs q) 0 ≤
      (np_sorted xs).getD (min (np_idx xs q + 1) (xs.length - 1)) 0 := by
    apply sorted_getD_mono (np_sorted_sorted xs)
    · exact le_min (Nat.le_succ _) hi_le
    · rw [hslen]; omega
  constructor
  · show (np_sorted xs).getD (np_idx xs q) 0 ≤
      (np_sorted xs).getD (np_idx xs q) 0 + (np_rank xs q - (np_idx xs q : ℚ)) *
        ((np_sorted xs).getD (min (np_idx xs q + 1) (xs.length - 1)) 0 -
          (np_sorted xs).getD (np_idx xs q) 0)
    nlinarith [mul_nonneg hfrac0 (sub_nonneg.mpr hlohi)]
  · show (np_sorted xs).getD (np_idx xs q) 0 + (np_rank xs q - (np_idx xs q : ℚ)) *
      ((np_sorted xs).getD (min (np_idx xs q + 1) (xs.length - 1)) 0 -
        (np_sorted xs).getD (np_idx xs q) 0) ≤
      (np_sorted xs).getD (min (np_idx xs q + 1) (xs.length - 1)) 0
    nlinarith [mul_nonneg (by linarith : (0:ℚ) ≤ 1 - (np_rank xs q - (np_idx xs q : ℚ)))
      (sub_nonneg.mpr hlohi)]

theorem np_min_le_percentile {xs : List ℚ} (hx : xs ≠ []) {q : ℚ}
    (hq0 : 0 ≤ q) (hq1 : q ≤ 100) : np_min xs ≤ np_percentile xs q := by
  have h := (np_percentile_between hx hq0 hq1).1
  refine le_trans ?_ h
  apply np_min_le_mem
  have hmem : (np_sorted xs).getD (np_idx xs q) 0 ∈ np_sorted xs := by
    apply getD_mem_of_lt
    rw [np_sorted_length]
    have := np_idx_le hx hq0 hq1
    have := List.length_pos.mpr hx
    omega
  exact (np_sorted_perm xs).mem_iff.mp hmem

theorem np_percentile_le_max {xs : List ℚ} (hx : xs ≠ []) {q : ℚ}
    (hq0 : 0 ≤ q) (hq1 : q ≤ 100) : np_percentile xs q ≤ np_max xs := by
  have h := (np_percentile_between hx hq0 hq1).2
  refine le_trans h ?_
  apply mem_le_np_max
  have hmem : (np_sorted xs).getD (min (np_idx xs q + 1) (xs.length - 1)) 0 ∈ np_sorted xs := by
    apply getD_mem_of_lt
    rw [np_sorted_length]
    have := List.length_pos.mpr hx
    omega
  exact (np_sorted_perm xs).mem_iff.mp hmem

theorem np_percentile_mono {xs : List ℚ} (hx : xs ≠ []) {q q' : ℚ}
    (hq0 : 0 ≤ q) (hq1 : q' ≤ 100) (hqq : q ≤ q') :
    np_percentile xs q ≤ np_percentile xs q' := by
  have hq'0 : 0 ≤ q' := le_trans hq0 hqq
  have hq1' : q ≤ 100 := le_trans hqq hq1
  have hlen : 1 ≤ xs.length := List.length_pos.mpr hx
  have hslen := np_sorted_length xs
  have hrr : np_rank xs q ≤ np_rank xs q' := by
    unfold np_rank
    have h1 : (1 : ℚ) ≤ (xs.length : ℚ) := by exact_mod_cast hlen
    have h2 := mul_le_mul_of_nonneg_right hqq (by linarith : (0:ℚ) ≤ (xs.length : ℚ) - 1)
    have h3 : (0:ℚ) < 100 := by norm_num
    rw [div_le_div_iff h3 h3]
    nlinarith
  have hff : ⌊np_rank xs q⌋ ≤ ⌊np_rank xs q'⌋ := Int.floor_le_floor hrr
  rcases eq_or_lt_of_le hff with heq | hlt
  · -- Same interpolation segment.
    have hidx : np_idx xs q = np_idx xs q' := by unfold np_idx; rw [heq]
    have hi_le : np_idx xs q' ≤ xs.length - 1 := np_idx_le hx hq'0 hq1
    have hlohi : (np_sorted xs).getD (np_idx xs q') 0 ≤
        (np_sorted xs).getD (min (np_idx xs q' + 1) (xs.length - 1)) 0 := by
      apply sorted_getD_mono (np_sorted_sorted xs)
      · exact le_min (Nat.le_succ _) hi_le
      · rw [hslen]; omega
    show (np_sorted xs).getD (np_idx xs q) 0 + (np_rank xs q - (np_idx xs q : ℚ)) *
        ((np_sorted xs).getD (min (np_idx xs q + 1) (xs.length - 1)) 0 -
          (np_sorted xs).getD (np_idx xs q) 0) ≤
      (np_sorted xs).getD (np_idx xs q') 0 + (np_rank xs q' - (np_idx xs q' : ℚ)) *
        ((np_sorted xs).getD (min (np_idx xs q' + 1) (xs.length - 1)) 0 -
          (np_sorted xs).getD (np_idx xs q') 0)
    rw [hidx]
    have hstep := mul_le_mul_of_nonneg_right
      (by linarith : np_rank xs q - (np_idx xs q' : ℚ) ≤ np_rank xs q' - (np_idx xs q' : ℚ))
      (sub_nonneg.mpr hlohi)
    linarith
  · -- Strictly later segment: go through the upper interpolation node.
    have h1 := np_idx_cast hx hq0
    have h2 := np_idx_cast hx hq'0
    have hi1 : np_idx xs q + 1 ≤ np_idx xs q' := by omega
    have hval_le_hi := (np_percentile_between hx hq0 hq1').2
    have hlo'_le := (np_percentile_between hx hq'0 hq1).1
    have hmid : (np_sorted xs).getD (min (np_idx xs q + 1) (xs.length - 1)) 0 ≤
        (np_sorted xs).getD (np_idx xs q') 0 := by
      apply sorted_getD_mono (np_sorted_sorted xs)
      · exact le_trans (min_le_left _ _) hi1
      · rw [hslen]
        have := np_idx_le hx hq'0 hq1
        omega
    linarith

/-- Disjoint boolean predicates count at most the length. -/
theorem countP_add_countP_le_length (l : List ℚ) (pb qb : ℚ → Bool)
    (h : ∀ x ∈ l, ¬(pb x = true ∧ qb x = true)) :
    l.countP pb + l.countP qb ≤ l.length := by
  induction l with
  | nil => simp
  | cons x t ih =>
    rw [List.countP_cons, List.countP_cons, List.length_cons]
    have hx := h x (List.mem_cons_self x t)
    have ht := ih (fun y hy => h y (List.mem_cons_of_mem x hy))
    by_cases hp : pb x = true
    · by_cases hq' : qb x = true
      · exact absurd ⟨hp, hq'⟩ hx
      · rw [Bool.not_eq_true] at hq'
        simp [hp, hq']
        omega
    · rw [Bool.not_eq_true] at hp
      by_cases hq' : qb x = true
      · simp [hp, hq']
        omega
      · rw [Bool.not_eq_true] at hq'
        simp [hp, hq']
        omega

/-! ### Concrete data of the end-to-end scenario -/

/-- The ten-pixel grid `[20,25,30,35,40,22,28,33,38,24]` with no NaNs. -/
def grid10 : Grid :=
  [some 20, some 25, some 30, some 35, some 40, some 22, some 28, some 33, some 38, some 24]

/-- The statistics record `compute_lst_statistics` produces for `grid10`
(the fields are spelled exactly as the function computes them). -/
noncomputable def lst_stats10 : LstStats :=
  { min_temp := np_min (validData grid10)
    max_temp := np_max (validData grid10)
    mean_temp := np_mean (validData grid10)
    median_temp := np_median (validData grid10)
    std_temp := np_std (validData grid10)
    temp_range := np_max (validData grid10) - np_min (validData grid10)
    percentile_25 := np_percentile (validData grid10) 25
    percentile_75 := np_percentile (validData grid10) 75
    hot_pixels := (validData grid10).countP
      (fun x => decide (np_percentile (validData grid10) 90 < x))
    cold_pixels := (validData grid10).countP
      (fun x => decide (x < np_percentile (validData grid10) 10))
    total_pixels := (validData grid10).length }

/-- Claim C8: for every grid with at least one valid pixel, the
statistics computed by `compute_lst_statistics` satisfy
`min ≤ p10 ≤ p25 ≤ median ≤ p75 ≤ p90 ≤ max` (percentiles by linear
interpolation, `p10`/`p90` being the thresholds the function uses for
the cold/hot pixel counts), and `hot_pixel_count + cold_pixel_count ≤
total_pixel_count`. -/
theorem c8_statistics_invariants (d : Grid) (st : LstStats)
    (h : compute_lst_statistics (some d) = some st) :
    st.min_temp ≤ np_percentile (validData d) 10 ∧
    np_percentile (validData d) 10 ≤ st.percentile_25 ∧
    st.percentile_25 ≤ st.median_temp ∧
    st.median_temp ≤ st.percentile_75 ∧
    st.percentile_75 ≤ np_percentile (validData d) 90 ∧
    np_percentile (validData d) 90 ≤ st.max_temp ∧
    st.hot_pixels + st.cold_pixels ≤ st.total_pixels := by
  by_cases hv : validData d = []
  · exfalso
    rw [compute_lst_statistics] at h
    simp only [hv] at h
    simp at h
  · rw [compute_lst_statistics] at h
    simp only [if_neg hv, Option.some.injEq] at h
    subst h
    refine ⟨?_, ?_, ?_, ?_, ?_, ?_, ?_⟩
    · exact np_min_le_percentile hv (by norm_num) (by norm_num)
    · exact np_percentile_mono hv (by norm_num) (by norm_num) (by norm_num)
    · exact np_percentile_mono hv (by norm_num) (by norm_num) (by norm_num)
    · exact np_percentile_mono hv (by norm_num) (by norm_num) (by norm_num)
    · exact np_percentile_mono hv (by norm_num) (by norm_num) (by norm_num)
    · exact np_percentile_le_max hv (by norm_num) (by norm_num)
    · show (validData d).countP (fun x => decide (np_percentile (validData d) 90 < x)) +
        (validData d).countP (fun x => decide (x < np_percentile (validData d) 10)) ≤
        (validData d).length
      apply countP_add_countP_le_length
      intro x _
      rintro ⟨h1, h2⟩
      rw [decide_eq_true_eq] at h1 h2
      have h3 : np_percentile (validData d) 10 ≤ np_percentile (validData d) 90 :=
        np_percentile_mono hv (by norm_num) (by norm_num) (by norm_num)
      linarith

/-- Witness for C8: the invariant chain holds at the concrete
ten-pixel grid of the end-to-end scenario. -/
theorem c8_statistics_invariants_witness :
    compute_lst_statistics (some grid10) = some lst_stats10 ∧
    (lst_stats10.min_temp ≤ np_percentile (validData grid10) 10 ∧
     np_percentile (validData grid10) 10 ≤ lst_stats10.percentile_25 ∧
     lst_stats10.percentile_25 ≤ lst_stats10.median_temp ∧
     lst_stats10.median_temp ≤ lst_stats10.percentile_75 ∧
     lst_stats10.percentile_75 ≤ np_percentile (validData grid10) 90 ∧
     np_percentile (validData grid10) 90 ≤ lst_stats10.max_temp ∧
     lst_stats10.hot_pixels + lst_stats10.cold_pixels ≤ lst_stats10.total_pixels) := by
  have h : compute_lst_statistics (some grid10) = some lst_stats10 := rfl
  exact ⟨h, c8_statistics_invariants grid10 lst_stats10 h⟩

/-! ### Concrete evaluations on the scenario grid -/

theorem validData_grid10 : validData grid10 = [20, 25, 30, 35, 40, 22, 28, 33, 38, 24] := rfl

theorem np_sorted_grid10 :
    np_sorted [20, 25, 30, 35, 40, 22, 28, 33, 38, 24] =
      [20, 22, 24, 25, 28, 30, 33, 35, 38, 40] := by
  norm_num [np_sorted, List.insertionSort, List.orderedInsert]

theorem np_idx_grid10_90 : np_idx [20, 25, 30, 35, 40, 22, 28, 33, 38, 24] 90 = 8 := by
  unfold np_idx
  rw [show np_rank [(20:ℚ), 25, 30, 35, 40, 22, 28, 33, 38, 24] 90 = 81/10 from by
    norm_num [np_rank]]
  rw [show ⌊(81:ℚ)/10⌋ = 8 from by rw [Int.floor_eq_iff] <;> norm_num]
  rfl

theorem np_percentile_grid10_90 :
    np_percentile [20, 25, 30, 35, 40, 22, 28, 33, 38, 24] 90 = 191/5 := by
  unfold np_percentile
  rw [np_sorted_grid10, np_idx_grid10_90]
  rw [show np_rank [(20:ℚ), 25, 30, 35, 40, 22, 28, 33, 38, 24] 90 = 81/10 from by
    norm_num [np_rank]]
  norm_num [List.getD]

theorem np_idx_grid10_10 : np_idx [20, 25, 30, 35, 40, 22, 28, 33, 38, 24] 10 = 0 := by
  unfold np_idx
  rw [show np_rank [(20:ℚ), 25, 30, 35, 40, 22, 28, 33, 38, 24] 10 = 9/10 from by
    norm_num [np_rank]]
  rw [show ⌊(9:ℚ)/10⌋ = 0 from by rw [Int.floor_eq_iff] <;> norm_num]
  rfl

theorem np_percentile_grid10_10 :
    np_percentile [20, 25, 30, 35, 40, 22, 28, 33, 38, 24] 10 = 109/5 := by
  unfold np_percentile
  rw [np_sorted_grid10, np_idx_grid10_10]
  rw [show np_rank [(20:ℚ), 25, 30, 35, 40, 22, 28, 33, 38, 24] 10 = 9/10 from by
    norm_num [np_rank]]
  norm_num [List.getD]

theorem np_mean_grid10 : np_mean [20, 25, 30, 35, 40, 22, 28, 33, 38, 24] = 59/2 := by
  norm_num [np_mean]

theorem np_min_grid10 : np_min [20, 25, 30, 35, 40, 22, 28, 33, 38, 24] = 20 := by
  show List.foldl min (20:ℚ) [25, 30, 35, 40, 22, 28, 33, 38, 24] = 20
  norm_num [min_def]

theorem np_max_grid10 : np_max [20, 25, 30, 35, 40, 22, 28, 33, 38, 24] = 40 := by
  show List.foldl max (20:ℚ) [25, 30, 35, 40, 22, 28, 33, 38, 24] = 40
  norm_num [max_def]

theorem hot_pixels_grid10 :
    List.countP (fun x => decide (np_percentile [20, 25, 30, 35, 40, 22, 28, 33, 38, 24] 90 < x))
      [(20:ℚ), 25, 30, 35, 40, 22, 28, 33, 38, 24] = 1 := by
  rw [np_percentile_grid10_90]
  norm_num [List.countP_cons, List.countP_nil, decide_eq_true_eq]

theorem cold_pixels_grid10 :
    List.countP (fun x => decide (x < np_percentile [20, 25, 30, 35, 40, 22, 28, 33, 38, 24] 10))
      [(20:ℚ), 25, 30, 35, 40, 22, 28, 33, 38, 24] = 1 := by
  rw [np_percentile_grid10_10]
  norm_num [List.countP_cons, List.countP_nil, decide_eq_true_eq]

/-- Claim C5: on the ten-pixel grid `[20,25,30,35,40,22,28,33,38,24]`
with no NaNs, `compute_lst_statistics` returns mean `29.5`, min `20`,
max `40`, range `20`, and one hot pixel (strictly above the linearly
interpolated 90th percentile, `38.2`) and one cold pixel (strictly
below the 10th percentile, `21.8`). -/
theorem c5_scenario_grid10 :
    (compute_lst_statistics (some grid10)).map
      (fun st => (st.mean_temp, st.min_temp, st.max_temp, st.temp_range,
        st.hot_pixels, st.cold_pixels)) =
    some (59/2, 20, 40, 20, 1, 1) := by
  have h : compute_lst_statistics (some grid10) = some lst_stats10 := rfl
  rw [h]
  show some (lst_stats10.mean_temp, lst_stats10.min_temp, lst_stats10.max_temp,
    lst_stats10.temp_range, lst_stats10.hot_pixels, lst_stats10.cold_pixels) =
    some ((59:ℚ)/2, 20, 40, 20, 1, 1)
  have h1 : lst_stats10.mean_temp = 59/2 := by
    show np_mean (validData grid10) = 59/2
    rw [validData_grid10, np_mean_grid10]
  have h2 : lst_stats10.min_temp = 20 := by
    show np_min (validData grid10) = 20
    rw [validData_grid10, np_min_grid10]
  have h3 : lst_stats10.max_temp = 40 := by
    show np_max (validData grid10) = 40
    rw [validData_grid10, np_max_grid10]
  have h4 : lst_stats10.temp_range = 20 := by
    show np_max (validData grid10) - np_min (validData grid10) = 20
    rw [validData_grid10, np_max_grid10, np_min_grid10]
    norm_num
  have h5 : lst_stats10.hot_pixels = 1 := by
    show (validData grid10).countP
      (fun x => decide (np_percentile (validData grid10) 90 < x)) = 1
    rw [validData_grid10]
    exact hot_pixels_grid10
  have h6 : lst_stats10.cold_pixels = 1 := by
    show (validData grid10).countP
      (fun x => decide (x < np_percentile (validData grid10) 10)) = 1
    rw [validData_grid10]
    exact cold_pixels_grid10
  rw [h1, h2, h3, h4, h5, h6]

/-- Claim C10: for every (non-NaN) mean temperature,
`calculate_thermal_comfort` returns one of the four comfort labels; the
trailing `"Unknown"` branch is unreachable because the four piecewise
ranges cover the whole line. -/
theorem c10_thermal_comfort_total (t : ℚ) :
    (calculate_thermal_comfort t = "Optimal Comfort" ∨
     calculate_thermal_comfort t = "Acceptable Comfort" ∨
     calculate_thermal_comfort t = "Slight Discomfort" ∨
     calculate_thermal_comfort t = "Significant Discomfort") ∧
    calculate_thermal_comfort t ≠ "Unknown" := by
  unfold calculate_thermal_comfort
  split_ifs with h1 h2 h3 h4
  · exact ⟨Or.inl rfl, by decide⟩
  · exact ⟨Or.inr (Or.inl rfl), by decide⟩
  · exact ⟨Or.inr (Or.inr (Or.inl rfl)), by decide⟩
  · exact ⟨Or.inr (Or.inr (Or.inr rfl)), by decide⟩
  · exfalso
    push_neg at h1 h2 h3 h4
    obtain ⟨h4a, h4b⟩ := h4
    obtain ⟨h3a, h3b⟩ := h3
    obtain ⟨h2a, h2b⟩ := h2
    have ht27 : t ≤ 27 := by
      by_contra hc
      push_neg at hc
      exact absurd h4b (by linarith [h3b hc])
    have ht15 : 15 ≤ t := h3a h4a
    have ht18 : 18 ≤ t := h2a ht15
    have ht24 : t ≤ 24 := by
      by_contra hc
      push_neg at hc
      linarith [h2b hc]
    linarith [h1 ht18]

/-- Claim C6 evaluation: the skewness/kurtosis functions guard only
`std == 0`; a two-element list with distinct values (skewness) and a
three-element list with distinct values (kurtosis) have nonzero
standard deviation and hit the unguarded integer division by zero,
raising `ZeroDivisionError` instead of returning the sentinel. Constant
lists do return the sentinels 0 and 3 through the `std == 0` guard. -/
theorem c6_divide_by_zero_guards :
    calculate_skewness [1, 2] = .error "division by zero" ∧
    calculate_kurtosis [1, 2, 3] = .error "division by zero" ∧
    calculate_skewness [5, 5, 5] = .ok 0 ∧
    calculate_kurtosis [5, 5, 5, 5] = .ok 3 := by
  have hv2 : np_var [(1:ℚ), 2] = 1/4 := by norm_num [np_var, np_mean]
  have hv3 : np_var [(1:ℚ), 2, 3] = 2/3 := by norm_num [np_var, np_mean]
  have hv5 : np_var [(5:ℚ), 5, 5] = 0 := by norm_num [np_var, np_mean]
  have hv55 : np_var [(5:ℚ), 5, 5, 5] = 0 := by norm_num [np_var, np_mean]
  refine ⟨?_, ?_, ?_, ?_⟩
  · simp only [calculate_skewness, hv2, List.length_cons, List.length_nil]
    norm_num
  · simp only [calculate_kurtosis, hv3, List.length_cons, List.length_nil]
    norm_num
  · simp only [calculate_skewness, hv5, List.length_cons, List.length_nil]
    norm_num
  · simp only [calculate_kurtosis, hv55, List.length_cons, List.length_nil]
    norm_num

/-! ### Counter lemmas for the usage statistics -/

theorem errSum_dictIncr (m : List (String × ℕ)) (k : String) :
    errSum (dictIncr m k) = errSum m + 1 := by
  induction m with
  | nil => simp [dictIncr, errSum]
  | cons p rest ih =>
    obtain ⟨k0, v⟩ := p
    by_cases hk : k0 = k
    · simp only [dictIncr, if_pos hk, errSum, List.map_cons, List.sum_cons]
      simp only [errSum] at ih
      omega
    · simp only [dictIncr, if_neg hk, errSum, List.map_cons, List.sum_cons]
      simp only [errSum] at ih
      omega

theorem log_api_request_counts (s : UsageStats) (success : Bool) (et : Option String)
    (fb : Bool) :
    (log_api_request s success et fb).total_requests = s.total_requests + 1 ∧
    (log_api_request s success et fb).successful_requests =
      s.successful_requests + (if success = true then 1 else 0) ∧
    (log_api_request s success et fb).failed_requests =
      s.failed_requests + (if success = true then 0 else 1) ∧
    (log_api_request s success et fb).fallback_requests =
      s.fallback_requests + (if fb = true then 1 else 0) ∧
    errSum (log_api_request s success et fb).error_types =
      errSum s.error_types + (if (!success && et.isSome) = true then 1 else 0) := by
  unfold log_api_request
  cases success <;> cases fb <;> cases et <;> simp [errSum_dictIncr]

theorem apply_requests_counts (reqs : List ApiRequestLog) : ∀ (s : UsageStats),
    (apply_requests s reqs).total_requests = s.total_requests + reqs.length ∧
    (apply_requests s reqs).successful_requests =
      s.successful_requests + reqs.countP (fun r => r.success) ∧
    (apply_requests s reqs).failed_requests =
      s.failed_requests + reqs.countP (fun r => !r.success) ∧
    (apply_requests s reqs).fallback_requests =
      s.fallback_requests + reqs.countP (fun r => r.fallback_used) ∧
    errSum (apply_requests s reqs).error_types =
      errSum s.error_types + reqs.countP (fun r => !r.success && r.error_type.isSome) := by
  induction reqs with
  | nil => intro s; simp [apply_requests]
  | cons r rest ih =>
    intro s
    obtain ⟨ha, hb, hc, hd, he⟩ :=
      log_api_request_counts s r.success r.error_type r.fallback_used
    obtain ⟨ra, rb, rc, rd, re⟩ := ih (log_api_request s r.success r.error_type r.fallback_used)
    simp only [apply_requests, List.foldl_cons] at ra rb rc rd re ⊢
    simp only [List.countP_cons, List.length_cons]
    refine ⟨?_, ?_, ?_, ?_, ?_⟩
    · rw [ra, ha]; omega
    · rw [rb, hb]; ring
    · rw [rc, hc]
      by_cases hs : r.success = true <;> simp [hs] <;> ring
    · rw [rd, hd]; ring
    · rw [re, he]; ring

/-- Claim C9 (implicit): starting from the zeroed counters of
`monitor_api_usage`, any sequence of `log_api_request` calls keeps
`total = successful + failed` and `fallback ≤ total`; the per-error-type
counts sum to the number of failed calls that supplied an error type;
and every single call increments `total_requests` by exactly 1. -/
theorem c9_usage_stats_invariants (reqs : List ApiRequestLog) :
    ((apply_requests monitor_api_usage reqs).total_requests =
      (apply_requests monitor_api_usage reqs).successful_requests +
        (apply_requests monitor_api_usage reqs).failed_requests) ∧
    ((apply_requests monitor_api_usage reqs).fallback_requests ≤
      (apply_requests monitor_api_usage reqs).total_requests) ∧
    (errSum (apply_requests monitor_api_usage reqs).error_types =
      reqs.countP (fun r => !r.success && r.error_type.isSome)) ∧
    (∀ (s : UsageStats) (success : Bool) (et : Option String) (fb : Bool),
      (log_api_request s success et fb).total_requests = s.total_requests + 1) := by
  obtain ⟨ha, hb, hc, hd, he⟩ := apply_requests_counts reqs monitor_api_usage
  refine ⟨?_, ?_, ?_, ?_⟩
  · rw [ha, hb, hc]
    show 0 + reqs.length = 0 + reqs.countP (fun r => r.success) +
      (0 + reqs.countP (fun r => !r.success))
    have hsplit := List.length_eq_countP_add_countP (fun r : ApiRequestLog => r.success)
      (l := reqs)
    have hcongr : reqs.countP (fun r : ApiRequestLog => decide ¬(r.success = true)) =
        reqs.countP (fun r => !r.success) := by
      apply List.countP_congr
      intro r _
      cases hr : r.success <;> simp [hr]
    omega
  · rw [hd, ha]
    show 0 + reqs.countP (fun r => r.fallback_used) ≤ 0 + reqs.length
    have := List.countP_le_length (fun r : ApiRequestLog => r.fallback_used) (l := reqs)
    omega
  · rw [he]
    show errSum [] + reqs.countP (fun r => !r.success && r.error_type.isSome) = _
    simp [errSum]
  · intro s success et fb
    exact (log_api_request_counts s success et fb).1

/-! ### Validator lemmas -/

theorem length_dropWhile_le (p : Char → Bool) (l : List Char) :
    (l.dropWhile p).length ≤ l.length := by
  induction l with
  | nil => simp
  | cons x t ih =>
    rw [List.dropWhile_cons]
    by_cases hp : p x = true
    · simp only [hp, if_true]
      exact le_trans ih (Nat.le_succ _)
    · simp [hp]

theorem py_strip_length_le (s : String) : (py_strip s).length ≤ s.length := by
  show (((s.data.dropWhile Char.isWhitespace).reverse.dropWhile
    Char.isWhitespace).reverse).length ≤ s.data.length
  rw [List.length_reverse]
  calc ((s.data.dropWhile Char.isWhitespace).reverse.dropWhile Char.isWhitespace).length
      ≤ (s.data.dropWhile Char.isWhitespace).reverse.length := length_dropWhile_le _ _
  _ = (s.data.dropWhile Char.isWhitespace).length := List.length_reverse _
  _ ≤ s.data.length := length_dropWhile_le _ _

/-- Claim C4: the validator rejects a response iff it is empty, shorter
than 10 characters after trimming, contains one of the five refusal
phrases case-insensitively, or has fewer than 5 words; `"Error"` is
rejected, every trimmed 10-character string with at least 5 words and
no refusal phrase is accepted, and every 9-character string is
rejected. -/
theorem c4_validator_characterization :
    (∀ s : String, (validate_response_quality s).1 = false ↔
      (s = "" ∨ (py_strip s).length < 10 ∨
        error_indicators.any (fun ind => strContains (py_lower s) ind) = true ∨
        (py_words s).length < 5)) ∧
    (validate_response_quality "Error").1 = false ∧
    (∀ s : String, (py_strip s).length = 10 →
      (∀ ind ∈ error_indicators, strContains (py_lower s) ind = false) →
      5 ≤ (py_words s).length →
      (validate_response_quality s).1 = true) ∧
    (∀ s : String, s.length = 9 → (validate_response_quality s).1 = false) := by
  have hmain : ∀ s : String, (validate_response_quality s).1 = false ↔
      (s = "" ∨ (py_strip s).length < 10 ∨
        error_indicators.any (fun ind => strContains (py_lower s) ind) = true ∨
        (py_words s).length < 5) := by
    intro s
    unfold validate_response_quality
    by_cases h1 : (decide (s = "") || decide ((py_strip s).length < 10)) = true
    · rw [if_pos h1]
      simp only [Bool.or_eq_true, decide_eq_true_eq] at h1
      simp only [true_iff]
      rcases h1 with h | h
      · exact Or.inl h
      · exact Or.inr (Or.inl h)
    · rw [if_neg h1]
      simp only [Bool.or_eq_true, decide_eq_true_eq, not_or] at h1
      obtain ⟨hne, hlen⟩ := h1
      show (match error_indicators.find? (fun indicator => strContains (py_lower s) indicator) with
        | some indicator => ((false : Bool), "Response contains error indicator: " ++ indicator)
        | none =>
          if (py_words s).length < 5 then ((false : Bool), "Response lacks sufficient detail")
          else (true, "Response quality acceptable")).1 = false ↔ _
      cases hfind : error_indicators.find? (fun ind => strContains (py_lower s) ind) with
      | some ind =>
        refine iff_of_true rfl (Or.inr (Or.inr (Or.inl ?_)))
        rw [List.any_eq_true]
        exact ⟨ind, List.mem_of_find?_eq_some hfind, List.find?_some hfind⟩
      | none =>
        have hnophrase : error_indicators.any (fun ind => strContains (py_lower s) ind) = false := by
          rw [Bool.eq_false_iff]
          intro hany
          rw [List.any_eq_true] at hany
          obtain ⟨ind, hmem, hp⟩ := hany
          exact absurd hp (List.find?_eq_none.mp hfind ind hmem)
        show (if (py_words s).length < 5 then ((false : Bool), "Response lacks sufficient detail")
          else (true, "Response quality acceptable")).1 = false ↔ _
        by_cases h2 : (py_words s).length < 5
        · rw [if_pos h2]
          exact iff_of_true rfl (Or.inr (Or.inr (Or.inr h2)))
        · rw [if_neg h2]
          refine iff_of_false (by simp) ?_
          push_neg
          exact ⟨hne, by omega, by simp [hnophrase], by omega⟩
  refine ⟨hmain, ?_, ?_, ?_⟩
  · rw [hmain "Error"]
    refine Or.inr (Or.inl ?_)
    decide
  · intro s h10 hnop h5
    have hiff := hmain s
    rcases hval : (validate_response_quality s).1 with hfalse | htrue
    · exfalso
      rcases hiff.mp hval with h | h | h | h
      · subst h
        simp [py_strip] at h10
      · omega
      · rw [List.any_eq_true] at h
        obtain ⟨ind, hmem, hp⟩ := h
        rw [hnop ind hmem] at hp
        cases hp
      · omega
    · rfl
  · intro s h9
    rw [hmain s]
    refine Or.inr (Or.inl ?_)
    have := py_strip_length_le s
    omega

/-- Witness for C4: the ten-character five-word string `"a b c d ef"`
is accepted (all three hypotheses of the acceptance clause checked at
this concrete input). -/
theorem c4_validator_characterization_witness :
    (validate_response_quality "a b c d ef").1 = true :=
  c4_validator_characterization.2.2.1 "a b c d ef" (by decide) (by decide) (by decide)

/-! ### Substring lemmas -/

theorem subAt_self_append (nd rest : List Char) : subAt nd (nd ++ rest) = true := by
  induction nd with
  | nil => rfl
  | cons c cs ih => simp [subAt, ih]

theorem subAt_extend (nd : List Char) : ∀ (s post : List Char), subAt nd s = true →
    subAt nd (s ++ post) = true := by
  induction nd with
  | nil => intro s post _; rfl
  | cons c cs ih =>
    intro s post h
    cases s with
    | nil => cases h
    | cons d ds =>
      simp only [subAt, Bool.and_eq_true, beq_iff_eq] at h
      simp only [List.cons_append, subAt, Bool.and_eq_true, beq_iff_eq]
      exact ⟨h.1, ih ds post h.2⟩

theorem hasSub_prefix (nd rest : List Char) : hasSub nd (nd ++ rest) = true := by
  cases nd with
  | nil =>
    cases rest with
    | nil => rfl
    | cons c cs => simp [hasSub, subAt]
  | cons c cs =>
    simp only [List.cons_append, hasSub, Bool.or_eq_true]
    exact Or.inl (by simpa using subAt_self_append (c :: cs) rest)

theorem hasSub_append_left (nd pre t : List Char) (h : hasSub nd t = true) :
    hasSub nd (pre ++ t) = true := by
  induction pre with
  | nil => simpa
  | cons c cs ih =>
    simp only [List.cons_append, hasSub, Bool.or_eq_true]
    exact Or.inr ih

theorem hasSub_extend (nd t post : List Char) (h : hasSub nd t = true) :
    hasSub nd (t ++ post) = true := by
  induction t with
  | nil =>
    have hnd : nd = [] := by
      cases nd with
      | nil => rfl
      | cons c cs => simp [hasSub] at h
    subst hnd
    cases post with
    | nil => rfl
    | cons c cs => simp [hasSub, subAt]
  | cons c cs ih =>
    simp only [hasSub, Bool.or_eq_true] at h
    simp only [List.cons_append, hasSub, Bool.or_eq_true]
    rcases h with h | h
    · exact Or.inl (subAt_extend nd (c :: cs) post h)
    · exact Or.inr (ih h)

theorem strContains_refl (c : String) : strContains c c = true := by
  unfold strContains
  have := hasSub_prefix c.data []
  simpa using this

theorem strContains_append_right (a b c : String) (h : strContains a c = true) :
    strContains (a ++ b) c = true := by
  unfold strContains at h ⊢
  rw [String.data_append]
  exact hasSub_extend _ _ _ h

theorem strContains_append_left (a b c : String) (h : strContains b c = true) :
    strContains (a ++ b) c = true := by
  unfold strContains at h ⊢
  rw [String.data_append]
  exact hasSub_append_left _ _ _ h

theorem recovery_contains_range (et q : String) (st : LstStats) :
    strContains (create_error_recovery_response et q st) (fmt1 st.temp_range ++ "°C") = true := by
  have hbase : strContains ("Based on available data: Temperature range " ++
      (fmt1 st.temp_range ++ "°C") ++ (", Average " ++ (fmt1 st.mean_temp ++ "°C")))
      (fmt1 st.temp_range ++ "°C") = true :=
    strContains_append_right _ _ _ (strContains_append_left _ _ _ (strContains_refl _))
  unfold create_error_recovery_response
  split_ifs <;>
    exact strContains_append_right _ _ _ (strContains_append_left _ _ _ hbase)

theorem recovery_contains_mean (et q : String) (st : LstStats) :
    strContains (create_error_recovery_response et q st) (fmt1 st.mean_temp ++ "°C") = true := by
  have hbase : strContains ("Based on available data: Temperature range " ++
      (fmt1 st.temp_range ++ "°C") ++ (", Average " ++ (fmt1 st.mean_temp ++ "°C")))
      (fmt1 st.mean_temp ++ "°C") = true :=
    strContains_append_left _ _ _ (strContains_append_left _ _ _ (strContains_refl _))
  unfold create_error_recovery_response
  split_ifs <;>
    exact strContains_append_right _ _ _ (strContains_append_left _ _ _ hbase)

/-! ### Well-definedness lemmas for the context builder -/

theorem calculate_skewness_isOk {xs : List ℚ}
    (h : ((xs.length : ℤ) - 1) * ((xs.length : ℤ) - 2) ≠ 0) :
    ∃ y, calculate_skewness xs = .ok y := by
  simp only [calculate_skewness]
  by_cases hv : np_var xs = 0
  · rw [if_pos hv]; exact ⟨0, rfl⟩
  · rw [if_neg hv, if_neg h]; exact ⟨_, rfl⟩

theorem calculate_kurtosis_isOk {xs : List ℚ}
    (h : ((xs.length : ℤ) - 1) * ((xs.length : ℤ) - 2) * ((xs.length : ℤ) - 3) ≠ 0) :
    ∃ y, calculate_kurtosis xs = .ok y := by
  simp only [calculate_kurtosis]
  by_cases hv : np_var xs = 0
  · rw [if_pos hv]; exact ⟨3, rfl⟩
  · rw [if_neg hv, if_neg h]; exact ⟨_, rfl⟩

theorem prepare_context_data_isOk {st : LstStats} {d : Grid}
    (hne : validData d ≠ [])
    (hs : ∃ y, calculate_skewness (validData d) = .ok y)
    (hk : ∃ y, calculate_kurtosis (validData d) = .ok y) :
    ∃ ctx, prepare_context_data (some st) (some d) = .ok (some ctx) := by
  obtain ⟨ys, hs⟩ := hs
  obtain ⟨yk, hk⟩ := hk
  have hsd : ∃ sd, analyze_spatial_distribution (validData d) = .ok sd := by
    unfold analyze_spatial_distribution
    rw [hs, hk]
    exact ⟨_, rfl⟩
  obtain ⟨sd, hsd⟩ := hsd
  simp only [prepare_context_data]
  rw [if_neg hne, hsd]
  exact ⟨_, rfl⟩

theorem prepare_grid10_isOk (st : LstStats) :
    ∃ ctx, prepare_context_data (some st) (some grid10) = .ok (some ctx) := by
  apply prepare_context_data_isOk
  · rw [validData_grid10]; decide
  · apply calculate_skewness_isOk
    rw [validData_grid10]; decide
  · apply calculate_kurtosis_isOk
    rw [validData_grid10]; decide

/-! ### Path lemmas for the orchestrator -/

/-- The trace produced by the `except` handler of `create_ai_response`
for an exception whose `str` is `e`. -/
noncomputable def except_handler_trace (e question : String) (st : LstStats) : OrchTrace :=
  { response := some (create_error_recovery_response (classify_error_type (py_lower e))
      question st)
    logs := [⟨false, some (classify_error_type (py_lower e)), true⟩]
    waits := if classify_error_type (py_lower e) = "rate_limit"
      then (handle_api_rate_limiting).waits else []
    fallback_invoked := false }

theorem orch_no_stats (question mode : String) (data : Option Grid) (client : Bool)
    (api : ApiResult) :
    create_ai_response question none data client api mode =
      .ok { response := some ("I don" ++ apos ++
              "t have enough data to analyze. Please ensure the LST data is loaded properly.")
            logs := [], waits := [], fallback_invoked := false } := rfl

theorem orch_unconfigured_ok (question mode : String) (st : LstStats) (data : Option Grid)
    (api : ApiResult) (r : Option String)
    (hfb : create_fallback_response question st data = .ok r) :
    create_ai_response question (some st) data false api mode =
      .ok { response := r, logs := [], waits := [], fallback_invoked := true } := by
  simp only [create_ai_response]
  rw [if_pos trivial, hfb]

theorem orch_unconfigured_raise (question mode : String) (st : LstStats) (data : Option Grid)
    (api : ApiResult) (e : String)
    (hfb : create_fallback_response question st data = .error e) :
    create_ai_response question (some st) data false api mode = .error e := by
  simp only [create_ai_response]
  rw [if_pos trivial, hfb]

theorem orch_prepare_raise (question mode : String) (st : LstStats) (data : Option Grid)
    (api : ApiResult) (e : String)
    (hp : prepare_context_data (some st) data = .error e) :
    create_ai_response question (some st) data true api mode =
      .ok (except_handler_trace e question st) := by
  simp only [create_ai_response]
  rw [hp]
  rfl

theorem orch_context_none_ok (question mode : String) (st : LstStats) (data : Option Grid)
    (api : ApiResult) (r : Option String)
    (hp : prepare_context_data (some st) data = .ok none)
    (hfb : create_fallback_response question st data = .ok r) :
    create_ai_response question (some st) data true api mode =
      .ok { response := r, logs := [], waits := [], fallback_invoked := true } := by
  simp only [create_ai_response]
  rw [hp, hfb]
  rfl

theorem orch_context_none_raise (question mode : String) (st : LstStats) (data : Option Grid)
    (api : ApiResult) (e : String)
    (hp : prepare_context_data (some st) data = .ok none)
    (hfb : create_fallback_response question st data = .error e) :
    create_ai_response question (some st) data true api mode =
      .ok (except_handler_trace e question st) := by
  simp only [create_ai_response]
  rw [hp, hfb]
  rfl

theorem orch_api_failure (question emsg mode : String) (st : LstStats) (data : Option Grid)
    (ctx : ContextData)
    (hp : prepare_context_data (some st) data = .ok (some ctx)) :
    create_ai_response question (some st) data true (.failure emsg) mode =
      .ok (except_handler_trace emsg question st) := by
  simp only [create_ai_response]
  rw [hp]
  rfl

theorem orch_quality_fail_ok (question text mode : String) (st : LstStats) (data : Option Grid)
    (ctx : ContextData) (r : Option String)
    (hp : prepare_context_data (some st) data = .ok (some ctx))
    (hq : (validate_response_quality text).1 = false)
    (hfb : create_fallback_response question st data = .ok r) :
    create_ai_response question (some st) data true (.success text) mode =
      .ok { response := r, logs := [⟨false, some "quality", true⟩], waits := []
            fallback_invoked := true } := by
  simp only [create_ai_response]
  rw [hp, if_pos hq, hfb]
  rfl

theorem orch_quality_fail_raise (question text mode : String) (st : LstStats)
    (data : Option Grid) (ctx : ContextData) (e : String)
    (hp : prepare_context_data (some st) data = .ok (some ctx))
    (hq : (validate_response_quality text).1 = false)
    (hfb : create_fallback_response question st data = .error e) :
    create_ai_response question (some st) data true (.success text) mode =
      .ok (except_handler_trace e question st) := by
  simp only [create_ai_response]
  rw [hp, if_pos hq, hfb]
  rfl

theorem orch_success (question text mode : String) (st : LstStats) (data : Option Grid)
    (ctx : ContextData)
    (hp : prepare_context_data (some st) data = .ok (some ctx))
    (hq : ¬((validate_response_quality text).1 = false)) :
    create_ai_response question (some st) data true (.success text) mode =
      .ok { response := some (format_ai_response text mode)
            logs := [⟨true, none, false⟩], waits := [], fallback_invoked := false } := by
  simp only [create_ai_response]
  rw [hp, if_neg hq]
  rfl

/-- Claim C1 evaluation (code bug): on the question `"temperature"` —
which matches the temperature keyword branch but none of its
highest/lowest/average/range sub-branches — `create_fallback_response`
falls off the end of the Python function and returns `None`, not a
string, although the statistics record is non-empty. -/
theorem c1_fallback_returns_none :
    create_fallback_response "temperature" lst_stats10 (some grid10) = .ok none := by
  obtain ⟨ctx, hctx⟩ := prepare_grid10_isOk lst_stats10
  simp only [create_fallback_response, hctx]
  rw [if_pos (by decide), if_neg (by decide), if_neg (by decide), if_neg (by decide),
    if_neg (by decide)]

/-- Counterexample to C2: with the API rate-limiting on every call and
`max_retries=3`, the orchestrator performs a single API call, sleeps
once for `2^0 = 1` second (`handle_api_rate_limiting()` is invoked with
the default `retry_count=0` and its `can_retry` result is unused — the
source comments "Could implement retry logic here"), and gives up: the
wait sequence is `[1]`, not the claimed `[1, 2, 4]`. The "exactly one
failed request" part does hold. -/
theorem c2_counterexample_single_wait :
    ((create_ai_response "q" (some lst_stats10) (some grid10) true
        (.failure "rate limit") "Comprehensive").map (fun tr => tr.waits) = .ok [1]) ∧
    ((create_ai_response "q" (some lst_stats10) (some grid10) true
        (.failure "rate limit") "Comprehensive").map (fun tr => tr.logs) =
      .ok [⟨false, some "rate_limit", true⟩]) ∧
    ([1] : List ℕ) ≠ [1, 2, 4] := by
  obtain ⟨ctx, hctx⟩ := prepare_grid10_isOk lst_stats10
  have h := orch_api_failure "q" "rate limit" "Comprehensive" lst_stats10 (some grid10) ctx hctx
  refine ⟨?_, ?_, by decide⟩
  · rw [h]; rfl
  · rw [h]; rfl

/-- Claim C2 as amended: on an error classified as `rate_limit`, the
orchestrator waits once for `2^0 = 1` second, performs no retry (a
single API call is consumed), logs exactly one failed `rate_limit`
request for the whole query, and returns the rate-limit error-recovery
response. -/
theorem c2_amended_rate_limit (question emsg mode : String) (st : LstStats)
    (data : Option Grid) (ctx : ContextData)
    (hctx : prepare_context_data (some st) data = .ok (some ctx))
    (hrl : classify_error_type (py_lower emsg) = "rate_limit") :
    create_ai_response question (some st) data true (.failure emsg) mode =
      .ok { response := some (create_error_recovery_response "rate_limit" question st)
            logs := [⟨false, some "rate_limit", true⟩]
            waits := [1]
            fallback_invoked := false } := by
  rw [orch_api_failure question emsg mode st data ctx hctx]
  unfold except_handler_trace
  rw [hrl]
  rfl

/-- Witness for the amended C2, at the scenario grid and the literal
error message `"rate limit"`. -/
theorem c2_amended_rate_limit_witness :
    create_ai_response "q" (some lst_stats10) (some grid10) true (.failure "rate limit")
        "Comprehensive" =
      .ok { response := some (create_error_recovery_response "rate_limit" "q" lst_stats10)
            logs := [⟨false, some "rate_limit", true⟩]
            waits := [1]
            fallback_invoked := false } := by
  obtain ⟨ctx, hctx⟩ := prepare_grid10_isOk lst_stats10
  exact c2_amended_rate_limit "q" "rate limit" "Comprehensive" lst_stats10 (some grid10)
    ctx hctx (by decide)

/-- Counterexample to C3: on a classified `network` error the
orchestrator does not invoke the Rule-Based Responder at all (the
`fallback_invoked` flag is false); it returns the standalone
`create_error_recovery_response` message instead. -/
theorem c3_counterexample_responder_not_invoked :
    ((create_ai_response "q" (some lst_stats10) (some grid10) true
        (.failure "network down") "Comprehensive").map (fun tr => tr.fallback_invoked) =
      .ok false) ∧
    ((create_ai_response "q" (some lst_stats10) (some grid10) true
        (.failure "network down") "Comprehensive").map (fun tr => tr.response) =
      .ok (some (create_error_recovery_response "network" "q" lst_stats10))) := by
  obtain ⟨ctx, hctx⟩ := prepare_grid10_isOk lst_stats10
  have h := orch_api_failure "q" "network down" "Comprehensive" lst_stats10 (some grid10)
    ctx hctx
  refine ⟨?_, ?_⟩
  · rw [h]; rfl
  · rw [h]; rfl

/-- Claim C3 as amended: the Rule-Based Responder is invoked (with no
notice prepended) exactly on the unconfigured-client, null-context, and
quality-rejection fallback paths; on classified-exception paths the
responder is not invoked, and the orchestrator instead returns the
error-recovery message, which names the error category and quotes both
the temperature range and the mean temperature. The inputs `data` /
`ctx` exercise the built-context paths and `data0` / `r0` the
null-context path. -/
theorem c3_amended_fallback_paths (question emsg text mode : String) (st : LstStats)
    (data : Option Grid) (ctx : ContextData) (r : Option String) (api : ApiResult)
    (data0 : Option Grid) (r0 : Option String)
    (hctx : prepare_context_data (some st) data = .ok (some ctx))
    (hfb : create_fallback_response question st data = .ok r)
    (hq : (validate_response_quality text).1 = false)
    (hctx0 : prepare_context_data (some st) data0 = .ok none)
    (hfb0 : create_fallback_response question st data0 = .ok r0) :
    (create_ai_response question (some st) data false api mode =
      .ok { response := r, logs := [], waits := [], fallback_invoked := true }) ∧
    (create_ai_response question (some st) data0 true api mode =
      .ok { response := r0, logs := [], waits := [], fallback_invoked := true }) ∧
    (create_ai_response question (some st) data true (.success text) mode =
      .ok { response := r, logs := [⟨false, some "quality", true⟩], waits := []
            fallback_invoked := true }) ∧
    ((create_ai_response question (some st) data true (.failure emsg) mode).map
      (fun tr => tr.fallback_invoked) = .ok false) ∧
    ((create_ai_response question (some st) data true (.failure emsg) mode).map
      (fun tr => tr.response) = .ok (some (create_error_recovery_response
        (classify_error_type (py_lower emsg)) question st))) ∧
    (strContains (create_error_recovery_response (classify_error_type (py_lower emsg))
      question st) (fmt1 st.temp_range ++ "°C") = true) ∧
    (strContains (create_error_recovery_response (classify_error_type (py_lower emsg))
      question st) (fmt1 st.mean_temp ++ "°C") = true) := by
  refine ⟨orch_unconfigured_ok question mode st data api r hfb,
    orch_context_none_ok question mode st data0 api r0 hctx0 hfb0,
    orch_quality_fail_ok question text mode st data ctx r hctx hq hfb, ?_, ?_,
    recovery_contains_range _ _ _, recovery_contains_mean _ _ _⟩
  · rw [orch_api_failure question emsg mode st data ctx hctx]; rfl
  · rw [orch_api_failure question emsg mode st data ctx hctx]; rfl

/-- The responder output for the question `"how"` (the data-source
branch, whose text does not depend on the climate indicators). -/
noncomputable def fallback_how_response : Option String :=
  some ("🛰️ **Data Source & Methodology**:\n\n**Land Surface Temperature (LST)** data is derived from satellite imagery, specifically measuring the temperature of the Earth" ++
    apos ++
    "s surface as observed from space.\n\n**Key Points**:\n• Different from air temperature measured by weather stations\n• Excellent for identifying urban heat islands\n• Useful for environmental monitoring and urban planning\n• Provides spatial temperature patterns across large areas\n• Helps identify areas needing climate adaptation measures\n\n**Current Dataset**: Covers " ++
    toString lst_stats10.total_pixels ++ " measurement points across Kilimani area.")

theorem fallback_how (ctx : ContextData)
    (hctx : prepare_context_data (some lst_stats10) (some grid10) = .ok (some ctx)) :
    create_fallback_response "how" lst_stats10 (some grid10) = .ok fallback_how_response := by
  simp only [create_fallback_response, hctx]
  rw [if_neg (by decide), if_neg (by decide), if_neg (by decide), if_neg (by decide),
    if_pos (by decide)]
  rfl

theorem fallback_how_none :
    create_fallback_response "how" lst_stats10 none = .ok fallback_how_response := by
  have hp : prepare_context_data (some lst_stats10) none = .ok none := rfl
  simp only [create_fallback_response, hp]
  rw [if_neg (by decide), if_neg (by decide), if_neg (by decide), if_neg (by decide),
    if_pos (by decide)]
  rfl

/-- Witness for the amended C3 at the scenario grid: question `"how"`,
rejected model output `"Error"`, a `"network down"` exception, and the
null-context run with `data = none`. -/
theorem c3_amended_fallback_paths_witness :
    (create_ai_response "how" (some lst_stats10) (some grid10) false (.success "ok")
        "Comprehensive" =
      .ok { response := fallback_how_response, logs := [], waits := []
            fallback_invoked := true }) ∧
    (create_ai_response "how" (some lst_stats10) none true (.success "ok")
        "Comprehensive" =
      .ok { response := fallback_how_response, logs := [], waits := []
            fallback_invoked := true }) ∧
    (create_ai_response "how" (some lst_stats10) (some grid10) true (.success "Error")
        "Comprehensive" =
      .ok { response := fallback_how_response, logs := [⟨false, some "quality", true⟩]
            waits := [], fallback_invoked := true }) ∧
    ((create_ai_response "how" (some lst_stats10) (some grid10) true (.failure "network down")
        "Comprehensive").map (fun tr => tr.fallback_invoked) = .ok false) ∧
    ((create_ai_response "how" (some lst_stats10) (some grid10) true (.failure "network down")
        "Comprehensive").map (fun tr => tr.response) =
      .ok (some (create_error_recovery_response
        (classify_error_type (py_lower "network down")) "how" lst_stats10))) ∧
    (strContains (create_error_recovery_response (classify_error_type (py_lower "network down"))
      "how" lst_stats10) (fmt1 lst_stats10.temp_range ++ "°C") = true) ∧
    (strContains (create_error_recovery_response (classify_error_type (py_lower "network down"))
      "how" lst_stats10) (fmt1 lst_stats10.mean_temp ++ "°C") = true) := by
  obtain ⟨ctx, hctx⟩ := prepare_grid10_isOk lst_stats10
  exact c3_amended_fallback_paths "how" "network down" "Error" "Comprehensive" lst_stats10
    (some grid10) ctx fallback_how_response (.success "ok") none fallback_how_response
    hctx (fallback_how ctx hctx) (by decide) rfl fallback_how_none

/-- Counterexample to C7: a query with non-empty statistics but an
unconfigured client returns via the Rule-Based Responder with zero
`log_api_request` calls, so the counters are not mutated at all —
not "exactly once". -/
theorem c7_counterexample_unconfigured_no_log :
    (create_ai_response "how" (some lst_stats10) (some grid10) false (.success "ok")
      "Comprehensive").map (fun tr => tr.logs) = .ok [] := by
  obtain ⟨ctx, hctx⟩ := prepare_grid10_isOk lst_stats10
  rw [orch_unconfigured_ok "how" "Comprehensive" lst_stats10 (some grid10) (.success "ok")
    fallback_how_response (fallback_how ctx hctx)]
  rfl

/-- Claim C7 as amended: every query calls `log_api_request` at most
once (never more than once, even when the rate-limit wait occurs);
queries short-circuited by empty statistics or an unconfigured client
perform no mutation; and every query that reaches the API stage (stats
present, client configured, context built) mutates the counters exactly
once — covering the success, quality-rejection, and classified-error
paths. -/
theorem c7_amended_single_log (question mode : String) (stats : Option LstStats)
    (data : Option Grid) (client : Bool) (api : ApiResult) (tr : OrchTrace)
    (h : create_ai_response question stats data client api mode = .ok tr) :
    tr.logs.length ≤ 1 ∧
    (stats = none → tr.logs = []) ∧
    (client = false → tr.logs = []) ∧
    (∀ st ctx, stats = some st → client = true →
      prepare_context_data (some st) data = .ok (some ctx) → tr.logs.length = 1) := by
  cases stats with
  | none =>
    rw [orch_no_stats question mode data client api, Except.ok.injEq] at h
    subst h
    exact ⟨by simp, fun _ => rfl, fun _ => rfl, fun st ctx hst => Option.noConfusion hst⟩
  | some st =>
    cases client with
    | false =>
      cases hfb : create_fallback_response question st data with
      | error e =>
        rw [orch_unconfigured_raise question mode st data api e hfb] at h
        cases h
      | ok r =>
        rw [orch_unconfigured_ok question mode st data api r hfb, Except.ok.injEq] at h
        subst h
        exact ⟨by simp, fun hst => Option.noConfusion hst, fun _ => rfl,
          fun st' ctx _ hcl => Bool.noConfusion hcl⟩
    | true =>
      cases hp : prepare_context_data (some st) data with
      | error e =>
        rw [orch_prepare_raise question mode st data api e hp, Except.ok.injEq] at h
        subst h
        exact ⟨le_refl 1, fun hst => Option.noConfusion hst,
          fun hcl => Bool.noConfusion hcl, fun st' ctx hst hcl hp' => rfl⟩
      | ok xctx =>
        cases xctx with
        | none =>
          cases hfb : create_fallback_response question st data with
          | error e =>
            rw [orch_context_none_raise question mode st data api e hp hfb,
              Except.ok.injEq] at h
            subst h
            refine ⟨le_refl 1, fun hst => Option.noConfusion hst,
              fun hcl => Bool.noConfusion hcl, ?_⟩
            intro st' ctx hst _ hp'
            obtain rfl : st = st' := by injection hst
            rw [hp] at hp'
            simp at hp'
          | ok r =>
            rw [orch_context_none_ok question mode st data api r hp hfb,
              Except.ok.injEq] at h
            subst h
            refine ⟨by simp, fun hst => Option.noConfusion hst, fun _ => rfl, ?_⟩
            intro st' ctx hst _ hp'
            obtain rfl : st = st' := by injection hst
            rw [hp] at hp'
            simp at hp'
        | some ctxv =>
          cases api with
          | failure emsg =>
            rw [orch_api_failure question emsg mode st data ctxv hp, Except.ok.injEq] at h
            subst h
            exact ⟨le_refl 1, fun hst => Option.noConfusion hst,
              fun hcl => Bool.noConfusion hcl, fun st' ctx hst hcl hp' => rfl⟩
          | success text =>
            by_cases hq : (validate_response_quality text).1 = false
            · cases hfb : create_fallback_response question st data with
              | error e =>
                rw [orch_quality_fail_raise question text mode st data ctxv e hp hq hfb,
                  Except.ok.injEq] at h
                subst h
                exact ⟨le_refl 1, fun hst => Option.noConfusion hst,
                  fun hcl => Bool.noConfusion hcl, fun st' ctx hst hcl hp' => rfl⟩
              | ok r =>
                rw [orch_quality_fail_ok question text mode st data ctxv r hp hq hfb,
                  Except.ok.injEq] at h
                subst h
                exact ⟨le_refl 1, fun hst => Option.noConfusion hst,
                  fun hcl => Bool.noConfusion hcl, fun st' ctx hst hcl hp' => rfl⟩
            · rw [orch_success question text mode st data ctxv hp hq, Except.ok.injEq] at h
              subst h
              exact ⟨le_refl 1, fun hst => Option.noConfusion hst,
                fun hcl => Bool.noConfusion hcl, fun st' ctx hst hcl hp' => rfl⟩

/-- Witness for the amended C7: a concrete successful query through the
API stage logs exactly one request. -/
theorem c7_amended_single_log_witness :
    (({ response := some (format_ai_response
          "This is a comprehensive analysis of temperature data with detailed insights."
          "Comprehensive")
        logs := [⟨true, none, false⟩], waits := [], fallback_invoked := false } :
        OrchTrace).logs.length ≤ 1) ∧
    ((some lst_stats10 : Option LstStats) = none →
      ({ response := some (format_ai_response
          "This is a comprehensive analysis of temperature data with detailed insights."
          "Comprehensive")
         logs := [⟨true, none, false⟩], waits := [], fallback_invoked := false } :
         OrchTrace).logs = []) ∧
    (true = false →
      ({ response := some (format_ai_response
          "This is a comprehensive analysis of temperature data with detailed insights."
          "Comprehensive")
         logs := [⟨true, none, false⟩], waits := [], fallback_invoked := false } :
         OrchTrace).logs = []) ∧
    (∀ st ctx, (some lst_stats10 : Option LstStats) = some st → true = true →
      prepare_context_data (some st) (some grid10) = .ok (some ctx) →
      ({ response := some (format_ai_response
          "This is a comprehensive analysis of temperature data with detailed insights."
          "Comprehensive")
         logs := [⟨true, none, false⟩], waits := [], fallback_invoked := false } :
         OrchTrace).logs.length = 1) := by
  obtain ⟨ctx, hctx⟩ := prepare_grid10_isOk lst_stats10
  exact c7_amended_single_log "how" "Comprehensive" (some lst_stats10) (some grid10) true
    (.success "This is a comprehensive analysis of temperature data with detailed insights.")
    _ (orch_success "how"
      "This is a comprehensive analysis of temperature data with detailed insights."
      "Comprehensive" lst_stats10 (some grid10) ctx hctx (by decide))
